import Mathlib

/-!
# ARM Cortex-M System Control Block interface

A shallow embedding of `include/arch/arm/cortex_m/scb.h`.  Every inline function of the
header becomes a Lean function on an explicit register state `Scb`.  A bit-field
assignment `reg.bit.f = x` on the memory-mapped block is a load of the storage unit
holding the field, a replacement of the field, and a store of the whole unit; the
store then goes through the write behaviour of that register (plain, write-one-to-clear,
or set/clear request bits).  Machine integers are naturals reduced modulo `2 ^ width`.
-/

namespace Zephyr

/-! ## C integer helpers -/

/-- C logical negation of an integer: 1 when the operand is zero, 0 otherwise. -/
def lnot (x : Nat) : Nat := if x = 0 then 1 else 0

/-- A bit-field of a storage unit: first bit position and width in bits. -/
structure BitField where
  pos : Nat
  width : Nat

/-- Value read from bit-field `f` of the storage unit `v`. -/
def BitField.get (f : BitField) (v : Nat) : Nat := (v >>> f.pos) % 2 ^ f.width

/-- Storage unit `v` with bit-field `f` replaced by `x` (truncated to the field width). -/
def BitField.set (f : BitField) (v x : Nat) : Nat :=
  (v ^^^ (v &&& ((2 ^ f.width - 1) <<< f.pos))) ||| ((x % 2 ^ f.width) <<< f.pos)

/-! ## Register layout (header `scs.h`) -/

/-- Modelled from the spec: field `vectactive` of the ICSR union of `scs.h` (header absent),
placed as in the ARMv7-M reference manual the spec defers to. -/
def icsr_vectactive : BitField := ⟨0, 9⟩
/-- Modelled from the spec: field `rettobase` of ICSR (`scs.h` absent), bit 11. -/
def icsr_rettobase : BitField := ⟨11, 1⟩
/-- Modelled from the spec: field `vectpending` of ICSR (`scs.h` absent), bits 12 to 20. -/
def icsr_vectpending : BitField := ⟨12, 9⟩
/-- Modelled from the spec: field `isrpending` of ICSR (`scs.h` absent), bit 22. -/
def icsr_isrpending : BitField := ⟨22, 1⟩
/-- Modelled from the spec: field `pendstclr` of ICSR (`scs.h` absent), bit 25. -/
def icsr_pendstclr : BitField := ⟨25, 1⟩
/-- Modelled from the spec: field `pendstset` of ICSR (`scs.h` absent), bit 26. -/
def icsr_pendstset : BitField := ⟨26, 1⟩
/-- Modelled from the spec: field `pendsvclr` of ICSR (`scs.h` absent), bit 27. -/
def icsr_pendsvclr : BitField := ⟨27, 1⟩
/-- Modelled from the spec: field `pendsvset` of ICSR (`scs.h` absent), bit 28. -/
def icsr_pendsvset : BitField := ⟨28, 1⟩
/-- Modelled from the spec: field `nmipendset` of ICSR (`scs.h` absent), bit 31. -/
def icsr_nmipendset : BitField := ⟨31, 1⟩

/-- Modelled from the spec: field `tbloff` of VTOR (`scs.h` absent), bits 7 to 28. -/
def vtor_tbloff : BitField := ⟨7, 22⟩
/-- Modelled from the spec: field `tblbase` of VTOR (`scs.h` absent), bit 29. -/
def vtor_tblbase : BitField := ⟨29, 1⟩

/-- Modelled from the spec: field `prigroup` of AIRCR (`scs.h` absent), bits 8 to 10. -/
def aircr_prigroup : BitField := ⟨8, 3⟩
/-- Modelled from the spec: field `endianness` of AIRCR (`scs.h` absent), bit 15. -/
def aircr_endianness : BitField := ⟨15, 1⟩

/-- Modelled from the spec: field `sleeponexit` of SCR (`scs.h` absent), bit 1. -/
def scr_sleeponexit : BitField := ⟨1, 1⟩
/-- Modelled from the spec: field `sleepdeep` of SCR (`scs.h` absent), bit 2. -/
def scr_sleepdeep : BitField := ⟨2, 1⟩
/-- Modelled from the spec: field `sevonpend` of SCR (`scs.h` absent), bit 4. -/
def scr_sevonpend : BitField := ⟨4, 1⟩

/-- Modelled from the spec: field `unalign_trp` of CCR (`scs.h` absent), bit 3. -/
def ccr_unalign_trp : BitField := ⟨3, 1⟩
/-- Modelled from the spec: field `div_0_trp` of CCR (`scs.h` absent), bit 4. -/
def ccr_div_0_trp : BitField := ⟨4, 1⟩

/-- Modelled from the spec: field `memfaultena` of SHCSR (`scs.h` absent), bit 16. -/
def shcsr_memfaultena : BitField := ⟨16, 1⟩
/-- Modelled from the spec: field `busfaultena` of SHCSR (`scs.h` absent), bit 17. -/
def shcsr_busfaultena : BitField := ⟨17, 1⟩
/-- Modelled from the spec: field `usgfaultena` of SHCSR (`scs.h` absent), bit 18. -/
def shcsr_usgfaultena : BitField := ⟨18, 1⟩

/-- Modelled from the spec: field `vecttbl` of HFSR (`scs.h` absent), bit 1. -/
def hfsr_vecttbl : BitField := ⟨1, 1⟩
/-- Modelled from the spec: field `forced` of HFSR (`scs.h` absent), bit 30. -/
def hfsr_forced : BitField := ⟨30, 1⟩

/-- Modelled from the spec: field `iaccviol` of the MMFSR byte (`scs.h` absent), bit 0. -/
def mmfsr_iaccviol : BitField := ⟨0, 1⟩
/-- Modelled from the spec: field `daccviol` of the MMFSR byte (`scs.h` absent), bit 1. -/
def mmfsr_daccviol : BitField := ⟨1, 1⟩
/-- Modelled from the spec: field `munstkerr` of the MMFSR byte (`scs.h` absent), bit 3. -/
def mmfsr_munstkerr : BitField := ⟨3, 1⟩
/-- Modelled from the spec: field `mstkerr` of the MMFSR byte (`scs.h` absent), bit 4. -/
def mmfsr_mstkerr : BitField := ⟨4, 1⟩
/-- Modelled from the spec: field `mmarvalid` of the MMFSR byte (`scs.h` absent), bit 7. -/
def mmfsr_mmarvalid : BitField := ⟨7, 1⟩

/-- Modelled from the spec: field `ibuserr` of the BFSR byte (`scs.h` absent), bit 0. -/
def bfsr_ibuserr : BitField := ⟨0, 1⟩
/-- Modelled from the spec: field `preciserr` of the BFSR byte (`scs.h` absent), bit 1. -/
def bfsr_preciserr : BitField := ⟨1, 1⟩
/-- Modelled from the spec: field `impreciserr` of the BFSR byte (`scs.h` absent), bit 2. -/
def bfsr_impreciserr : BitField := ⟨2, 1⟩
/-- Modelled from the spec: field `unstkerr` of the BFSR byte (`scs.h` absent), bit 3. -/
def bfsr_unstkerr : BitField := ⟨3, 1⟩
/-- Modelled from the spec: field `stkerr` of the BFSR byte (`scs.h` absent), bit 4. -/
def bfsr_stkerr : BitField := ⟨4, 1⟩
/-- Modelled from the spec: field `bfarvalid` of the BFSR byte (`scs.h` absent), bit 7. -/
def bfsr_bfarvalid : BitField := ⟨7, 1⟩

/-- Modelled from the spec: field `undefinstr` of the UFSR halfword (`scs.h` absent), bit 0. -/
def ufsr_undefinstr : BitField := ⟨0, 1⟩
/-- Modelled from the spec: field `invstate` of the UFSR halfword (`scs.h` absent), bit 1. -/
def ufsr_invstate : BitField := ⟨1, 1⟩
/-- Modelled from the spec: field `invpc` of the UFSR halfword (`scs.h` absent), bit 2. -/
def ufsr_invpc : BitField := ⟨2, 1⟩
/-- Modelled from the spec: field `nocp` of the UFSR halfword (`scs.h` absent), bit 3. -/
def ufsr_nocp : BitField := ⟨3, 1⟩
/-- Modelled from the spec: field `unaligned` of the UFSR halfword (`scs.h` absent), bit 8. -/
def ufsr_unaligned : BitField := ⟨8, 1⟩
/-- Modelled from the spec: field `divbyzero` of the UFSR halfword (`scs.h` absent), bit 9. -/
def ufsr_divbyzero : BitField := ⟨9, 1⟩

/-! ## Register state and device behaviour -/

/-- Register block `__scs.scb`: one natural per register, the twelve bytes of the
system handler priority array `shpr`, and the three lanes of CFSR that the header
reaches through `cfsr.byte` (MMFSR byte, BFSR byte, UFSR halfword). -/
structure Scb where
  icsr : Nat
  vtor : Nat
  aircr : Nat
  scr : Nat
  ccr : Nat
  shpr : Fin 12 → Nat
  shcsr : Nat
  mmfsr : Nat
  bfsr : Nat
  ufsr : Nat
  hfsr : Nat
  mmfar : Nat
  bfar : Nat

/-- Device properties that the architecture leaves to the implementation.
`prioBits` is the number of implemented high bits of a priority byte. -/
structure Hw where
  prioBits : Nat

/-- Result of a call guarded by an assertion: it either runs to completion with a
return value and a final state, or the assertion fires in the state it was reached in. -/
inductive Outcome (α : Type) where
  | done (ret : α) (s : Scb)
  | assertFailed (s : Scb)

/-- True when the call ran past its assertion. -/
def Outcome.succeeded {α : Type} : Outcome α → Bool
  | .done _ _ => true
  | .assertFailed _ => false

/-- State the call leaves behind (for a fired assertion, the state it fired in). -/
def Outcome.state {α : Type} : Outcome α → Scb
  | .done _ s => s
  | .assertFailed s => s

/-- Value returned by the call, when it ran past its assertion. -/
def Outcome.value {α : Type} : Outcome α → Option α
  | .done v _ => some v
  | .assertFailed _ => none

/-- Modelled from the spec: the assertion `__ASSERT(test, msg)` of `misc/__assert.h`
(header absent).  A configuration error is fatal and caught by the assertion at the call
site: when the test is false the call stops there, in state `s`, and the rest of the
function body does not run.  Assertions are taken as enabled. -/
def __ASSERT {α : Type} (test : Prop) [Decidable test] (s : Scb) (body : test → Outcome α) :
    Outcome α :=
  if h : test then body h else .assertFailed s

/-- Modelled from the spec: write-one-to-clear store (status bits of the fault registers):
a bit written as 1 is cleared, a bit written as 0 keeps its value. -/
def w1c (old w : Nat) : Nat := old ^^^ (old &&& w)

/-- Load of ICSR: the two clear-request bits are write-only and read as zero. -/
def icsrLoad (s : Scb) : Nat :=
  icsr_pendstclr.set (icsr_pendsvclr.set (s.icsr % 2 ^ 32) 0) 0

/-- Modelled from the spec: new pending state of an exception after a store with request
bits `set` and `clr`.  A clear request leaves the exception not pending, as the
specification says of `clear_pending` and the header of the clear routines; otherwise a
set request leaves it pending; without a request the state is kept. -/
def pendWrite (old set clr : Nat) : Nat :=
  if clr = 1 then 0 else if set = 1 then 1 else old

/-- Modelled from the spec: store to ICSR.  Each pend/clear request maps to one dedicated
bit: writing 1 to `nmipendset`, `pendsvset`, `pendstset` pends the exception, writing 1 to
`pendsvclr`, `pendstclr` removes the pending state, writing 0 requests nothing; the
remaining fields are read-only status. -/
def icsrStore (s : Scb) (w : Nat) : Scb :=
  let r := icsrLoad s
  let nmi := if icsr_nmipendset.get w = 1 then 1 else icsr_nmipendset.get r
  let sv := pendWrite (icsr_pendsvset.get r) (icsr_pendsvset.get w) (icsr_pendsvclr.get w)
  let st := pendWrite (icsr_pendstset.get r) (icsr_pendstset.get w) (icsr_pendstclr.get w)
  { s with icsr := icsr_pendstset.set (icsr_pendsvset.set (icsr_nmipendset.set r nmi) sv) st }

/-- Load of VTOR. -/
def vtorLoad (s : Scb) : Nat := s.vtor % 2 ^ 32
/-- Store to VTOR. -/
def vtorStore (s : Scb) (w : Nat) : Scb := { s with vtor := w % 2 ^ 32 }
/-- Load of AIRCR. -/
def aircrLoad (s : Scb) : Nat := s.aircr % 2 ^ 32
/-- Load of SCR. -/
def scrLoad (s : Scb) : Nat := s.scr % 2 ^ 32
/-- Store to SCR. -/
def scrStore (s : Scb) (w : Nat) : Scb := { s with scr := w % 2 ^ 32 }
/-- Load of CCR. -/
def ccrLoad (s : Scb) : Nat := s.ccr % 2 ^ 32
/-- Store to CCR. -/
def ccrStore (s : Scb) (w : Nat) : Scb := { s with ccr := w % 2 ^ 32 }
/-- Load of SHCSR. -/
def shcsrLoad (s : Scb) : Nat := s.shcsr % 2 ^ 32
/-- Store to SHCSR. -/
def shcsrStore (s : Scb) (w : Nat) : Scb := { s with shcsr := w % 2 ^ 32 }

/-- Load of one byte of the priority array. -/
def shprLoad (s : Scb) (i : Fin 12) : Nat := s.shpr i % 2 ^ 8
/-- Store to one byte of the priority array: the device keeps the `prioBits` implemented
high bits and ignores the low ones. -/
def shprStore (hw : Hw) (s : Scb) (i : Fin 12) (w : Nat) : Scb :=
  { s with shpr := Function.update s.shpr i (w % 2 ^ 8 - (w % 2 ^ 8) % 2 ^ (8 - hw.prioBits)) }

/-- Load of HFSR. -/
def hfsrLoad (s : Scb) : Nat := s.hfsr % 2 ^ 32
/-- Store to HFSR (write-one-to-clear). -/
def hfsrStore (s : Scb) (w : Nat) : Scb := { s with hfsr := w1c (s.hfsr % 2 ^ 32) (w % 2 ^ 32) }
/-- Load of the MMFSR byte of CFSR. -/
def mmfsrLoad (s : Scb) : Nat := s.mmfsr % 2 ^ 8
/-- Store to the MMFSR byte of CFSR (write-one-to-clear). -/
def mmfsrStore (s : Scb) (w : Nat) : Scb := { s with mmfsr := w1c (s.mmfsr % 2 ^ 8) (w % 2 ^ 8) }
/-- Load of the BFSR byte of CFSR. -/
def bfsrLoad (s : Scb) : Nat := s.bfsr % 2 ^ 8
/-- Store to the BFSR byte of CFSR (write-one-to-clear). -/
def bfsrStore (s : Scb) (w : Nat) : Scb := { s with bfsr := w1c (s.bfsr % 2 ^ 8) (w % 2 ^ 8) }
/-- Load of the UFSR halfword of CFSR. -/
def ufsrLoad (s : Scb) : Nat := s.ufsr % 2 ^ 16
/-- Store to the UFSR halfword of CFSR (write-one-to-clear). -/
def ufsrStore (s : Scb) (w : Nat) : Scb := { s with ufsr := w1c (s.ufsr % 2 ^ 16) (w % 2 ^ 16) }

/-! ## The inline functions of `scb.h`, in source order -/

/-- Source `_ScbNmiPend`: field `nmipendset` of ICSR assigned 1. -/
def _ScbNmiPend (s : Scb) : Scb := icsrStore s (icsr_nmipendset.set (icsrLoad s) 1)

/-- Source `_ScbPendsvSet`: field `pendsvset` of ICSR assigned 1. -/
def _ScbPendsvSet (s : Scb) : Scb := icsrStore s (icsr_pendsvset.set (icsrLoad s) 1)

/-- Source `_ScbPendsvClear`: field `pendsvclr` of ICSR assigned 1. -/
def _ScbPendsvClear (s : Scb) : Scb := icsrStore s (icsr_pendsvclr.set (icsrLoad s) 1)

/-- Source `_ScbSystickPendSet`: field `pendstset` of ICSR assigned 1. -/
def _ScbSystickPendSet (s : Scb) : Scb :=
  icsrStore s (icsr_pendstset.set (icsrLoad s) 1)

/-- Source `_ScbSystickPendClear`: field `pendstclr` of ICSR assigned 1. -/
def _ScbSystickPendClear (s : Scb) : Scb :=
  icsrStore s (icsr_pendstclr.set (icsrLoad s) 1)

/-- Source `_ScbIsIrqPending`: the `isrpending` field. -/
def _ScbIsIrqPending (s : Scb) : Nat := icsr_isrpending.get (icsrLoad s)

/-- Source `_ScbHiPriVectorPendingGet`: the `vectpending` field of a copy of ICSR. -/
def _ScbHiPriVectorPendingGet (s : Scb) : Nat := icsr_vectpending.get (icsrLoad s)

/-- Source `_ScbIsNestedExc`: negation of the `rettobase` field. -/
def _ScbIsNestedExc (s : Scb) : Nat := lnot (icsr_rettobase.get (icsrLoad s))

/-- Source `_ScbIsInThreadMode`: negation of the `vectactive` field. -/
def _ScbIsInThreadMode (s : Scb) : Nat := lnot (icsr_vectactive.get (icsrLoad s))

/-- Source `_ScbIsInHandlerMode`: negation of `_ScbIsInThreadMode`. -/
def _ScbIsInHandlerMode (s : Scb) : Nat := lnot (_ScbIsInThreadMode s)

/-- Source `_ScbIsInExc`: the value of `_ScbIsInHandlerMode`. -/
def _ScbIsInExc (s : Scb) : Nat := _ScbIsInHandlerMode s

/-- Source `_ScbActiveVectorGet`: the `vectactive` field. -/
def _ScbActiveVectorGet (s : Scb) : Nat := icsr_vectactive.get (icsrLoad s)

/-- Source `_ScbIsVtableInSram`: double negation of the `tblbase` field of VTOR. -/
def _ScbIsVtableInSram (s : Scb) : Nat := lnot (lnot (vtor_tblbase.get (vtorLoad s)))

/-- Source `_ScbVtableLocationSet`: asserts `!(sram & 0xfffffffe)`, then assigns `sram` to
the `tblbase` field. -/
def _ScbVtableLocationSet (s : Scb) (sram : Nat) : Outcome Unit :=
  __ASSERT (lnot (sram % 2 ^ 32 &&& 0xfffffffe) ≠ 0) s fun _ =>
    .done () (vtorStore s (vtor_tblbase.set (vtorLoad s) sram))

/-- Source `_ScbVtableAddrGet`: the `tbloff` field of VTOR. -/
def _ScbVtableAddrGet (s : Scb) : Nat := vtor_tbloff.get (vtorLoad s)

/-- Source `_ScbVtableAddrSet`: asserts `!(addr & 0x7F)`, then assigns `addr` to the
`tbloff` field. -/
def _ScbVtableAddrSet (s : Scb) (addr : Nat) : Outcome Unit :=
  __ASSERT (lnot (addr % 2 ^ 32 &&& 0x7F) ≠ 0) s fun _ =>
    .done () (vtorStore s (vtor_tbloff.set (vtorLoad s) (addr % 2 ^ 32)))

/-- Source `_ScbIsDataLittleEndian`: negation of the `endianness` field of AIRCR. -/
def _ScbIsDataLittleEndian (s : Scb) : Nat := lnot (aircr_endianness.get (aircrLoad s))

/-- Source `_ScbNumPriGroupGet`: `1 << (7 - prigroup)` on the `prigroup` field of AIRCR. -/
def _ScbNumPriGroupGet (s : Scb) : Nat := 1 <<< (7 - aircr_prigroup.get (aircrLoad s))

/-- Source `_ScbSleepOnExitSet`: field `sleeponexit` of SCR assigned 1. -/
def _ScbSleepOnExitSet (s : Scb) : Scb := scrStore s (scr_sleeponexit.set (scrLoad s) 1)
/-- Source `_ScbSleepOnExitClear`: field `sleeponexit` of SCR assigned 0. -/
def _ScbSleepOnExitClear (s : Scb) : Scb := scrStore s (scr_sleeponexit.set (scrLoad s) 0)
/-- Source `_ScbSevOnPendSet`: field `sevonpend` of SCR assigned 1. -/
def _ScbSevOnPendSet (s : Scb) : Scb := scrStore s (scr_sevonpend.set (scrLoad s) 1)
/-- Source `_ScbSevOnPendClear`: field `sevonpend` of SCR assigned 0. -/
def _ScbSevOnPendClear (s : Scb) : Scb := scrStore s (scr_sevonpend.set (scrLoad s) 0)
/-- Source `_ScbSleepDeepSet`: field `sleepdeep` of SCR assigned 1. -/
def _ScbSleepDeepSet (s : Scb) : Scb := scrStore s (scr_sleepdeep.set (scrLoad s) 1)
/-- Source `_ScbSleepDeepClear`: field `sleepdeep` of SCR assigned 0. -/
def _ScbSleepDeepClear (s : Scb) : Scb := scrStore s (scr_sleepdeep.set (scrLoad s) 0)

/-- Source `_ScbDivByZeroFaultEnable`: field `div_0_trp` of CCR assigned 1. -/
def _ScbDivByZeroFaultEnable (s : Scb) : Scb := ccrStore s (ccr_div_0_trp.set (ccrLoad s) 1)
/-- Source `_ScbDivByZeroFaultDisable`: field `div_0_trp` of CCR assigned 0. -/
def _ScbDivByZeroFaultDisable (s : Scb) : Scb := ccrStore s (ccr_div_0_trp.set (ccrLoad s) 0)
/-- Source `_ScbUnalignedFaultEnable`: field `unalign_trp` of CCR assigned 1. -/
def _ScbUnalignedFaultEnable (s : Scb) : Scb := ccrStore s (ccr_unalign_trp.set (ccrLoad s) 1)
/-- Source `_ScbUnalignedFaultDisable`: field `unalign_trp` of CCR assigned 0. -/
def _ScbUnalignedFaultDisable (s : Scb) : Scb := ccrStore s (ccr_unalign_trp.set (ccrLoad s) 0)
/-- Source `ScbCcrSet`: the whole of CCR assigned `val`. -/
def ScbCcrSet (s : Scb) (val : Nat) : Scb := ccrStore s val

/-- Source `_ScbExcPrioGet`: asserts `(exc > 3) && (exc < 16)`, then returns byte `exc - 4`
of the priority array.  The parameter is a `uint8_t`: the argument arrives reduced modulo
`2 ^ 8`. -/
def _ScbExcPrioGet (s : Scb) (exc : Nat) : Outcome Nat :=
  __ASSERT (3 < exc % 2 ^ 8 ∧ exc % 2 ^ 8 < 16) s fun h =>
    .done (shprLoad s ⟨exc % 2 ^ 8 - 4, by omega⟩) s

/-- Source `_ScbExcPrioSet`: asserts `(exc > 3) && (exc < 16)`, then stores `pri` to byte
`exc - 4` of the priority array.  Both parameters are `uint8_t`: the exception number
arrives reduced modulo `2 ^ 8`, and so does the priority in `shprStore`. -/
def _ScbExcPrioSet (hw : Hw) (s : Scb) (exc pri : Nat) : Outcome Unit :=
  __ASSERT (3 < exc % 2 ^ 8 ∧ exc % 2 ^ 8 < 16) s fun h =>
    .done () (shprStore hw s ⟨exc % 2 ^ 8 - 4, by omega⟩ pri)

/-- Source `_ScbUsageFaultEnable`: field `usgfaultena` of SHCSR assigned 1. -/
def _ScbUsageFaultEnable (s : Scb) : Scb := shcsrStore s (shcsr_usgfaultena.set (shcsrLoad s) 1)
/-- Source `_ScbUsageFaultDisable`: field `usgfaultena` of SHCSR assigned 0. -/
def _ScbUsageFaultDisable (s : Scb) : Scb := shcsrStore s (shcsr_usgfaultena.set (shcsrLoad s) 0)
/-- Source `_ScbBusFaultEnable`: field `busfaultena` of SHCSR assigned 1. -/
def _ScbBusFaultEnable (s : Scb) : Scb := shcsrStore s (shcsr_busfaultena.set (shcsrLoad s) 1)
/-- Source `_ScbBusFaultDisable`: field `busfaultena` of SHCSR assigned 0. -/
def _ScbBusFaultDisable (s : Scb) : Scb := shcsrStore s (shcsr_busfaultena.set (shcsrLoad s) 0)
/-- Source `_ScbMemFaultEnable`: field `memfaultena` of SHCSR assigned 1. -/
def _ScbMemFaultEnable (s : Scb) : Scb := shcsrStore s (shcsr_memfaultena.set (shcsrLoad s) 1)
/-- Source `_ScbMemFaultDisable`: field `memfaultena` of SHCSR assigned 0. -/
def _ScbMemFaultDisable (s : Scb) : Scb := shcsrStore s (shcsr_memfaultena.set (shcsrLoad s) 0)

/-- Source `_ScbHardFaultIsBusErrOnVectorRead`: the `vecttbl` field of HFSR. -/
def _ScbHardFaultIsBusErrOnVectorRead (s : Scb) : Nat := hfsr_vecttbl.get (hfsrLoad s)
/-- Source `_ScbHardFaultIsForced`: the `forced` field of HFSR. -/
def _ScbHardFaultIsForced (s : Scb) : Nat := hfsr_forced.get (hfsrLoad s)
/-- Source `_ScbHardFaultAllFaultsReset`: stores `0xffff` to HFSR and returns the value of
the assignment expression, the stored constant. -/
def _ScbHardFaultAllFaultsReset (s : Scb) : Nat × Scb := (0xffff, hfsrStore s 0xffff)

/-- Source `_ScbIsMemFault`: double negation of the MMFSR byte. -/
def _ScbIsMemFault (s : Scb) : Nat := lnot (lnot (mmfsrLoad s))
/-- Source `_ScbMemFaultIsMmfarValid`: double negation of the `mmarvalid` field. -/
def _ScbMemFaultIsMmfarValid (s : Scb) : Nat := lnot (lnot (mmfsr_mmarvalid.get (mmfsrLoad s)))
/-- Source `_ScbMemFaultMmfarReset`: field `mmarvalid` of MMFSR assigned 0. -/
def _ScbMemFaultMmfarReset (s : Scb) : Scb := mmfsrStore s (mmfsr_mmarvalid.set (mmfsrLoad s) 0)
/-- Source `_ScbMemFaultAllFaultsReset`: stores `0xfe` to the MMFSR byte. -/
def _ScbMemFaultAllFaultsReset (s : Scb) : Scb := mmfsrStore s 0xfe
/-- Source `_ScbMemFaultIsStacking`: double negation of the `mstkerr` field. -/
def _ScbMemFaultIsStacking (s : Scb) : Nat := lnot (lnot (mmfsr_mstkerr.get (mmfsrLoad s)))
/-- Source `_ScbMemFaultIsUnstacking`: double negation of the `munstkerr` field. -/
def _ScbMemFaultIsUnstacking (s : Scb) : Nat := lnot (lnot (mmfsr_munstkerr.get (mmfsrLoad s)))
/-- Source `_ScbMemFaultIsDataAccessViolation`: double negation of the `daccviol` field. -/
def _ScbMemFaultIsDataAccessViolation (s : Scb) : Nat :=
  lnot (lnot (mmfsr_daccviol.get (mmfsrLoad s)))
/-- Source `_ScbMemFaultIsInstrAccessViolation`: double negation of the `iaccviol` field. -/
def _ScbMemFaultIsInstrAccessViolation (s : Scb) : Nat :=
  lnot (lnot (mmfsr_iaccviol.get (mmfsrLoad s)))
/-- Source `_ScbMemFaultAddrGet`: the MMFAR register. -/
def _ScbMemFaultAddrGet (s : Scb) : Nat := s.mmfar % 2 ^ 32

/-- Source `_ScbIsBusFault`: double negation of the BFSR byte. -/
def _ScbIsBusFault (s : Scb) : Nat := lnot (lnot (bfsrLoad s))
/-- Source `_ScbBusFaultIsBfarValid`: double negation of the `bfarvalid` field. -/
def _ScbBusFaultIsBfarValid (s : Scb) : Nat := lnot (lnot (bfsr_bfarvalid.get (bfsrLoad s)))
/-- Source `_ScbBusFaultBfarReset`: field `bfarvalid` of BFSR assigned 0. -/
def _ScbBusFaultBfarReset (s : Scb) : Scb := bfsrStore s (bfsr_bfarvalid.set (bfsrLoad s) 0)
/-- Source `_ScbBusFaultAllFaultsReset`: stores `0xfe` to the BFSR byte. -/
def _ScbBusFaultAllFaultsReset (s : Scb) : Scb := bfsrStore s 0xfe
/-- Source `_ScbBusFaultIsStacking`: double negation of the `stkerr` field. -/
def _ScbBusFaultIsStacking (s : Scb) : Nat := lnot (lnot (bfsr_stkerr.get (bfsrLoad s)))
/-- Source `_ScbBusFaultIsUnstacking`: double negation of the `unstkerr` field. -/
def _ScbBusFaultIsUnstacking (s : Scb) : Nat := lnot (lnot (bfsr_unstkerr.get (bfsrLoad s)))
/-- Source `_ScbBusFaultIsImprecise`: double negation of the `impreciserr` field. -/
def _ScbBusFaultIsImprecise (s : Scb) : Nat := lnot (lnot (bfsr_impreciserr.get (bfsrLoad s)))
/-- Source `_ScbBusFaultIsPrecise`: double negation of the `preciserr` field. -/
def _ScbBusFaultIsPrecise (s : Scb) : Nat := lnot (lnot (bfsr_preciserr.get (bfsrLoad s)))
/-- Source `_ScbBusFaultIsInstrBusErr`: double negation of the `ibuserr` field. -/
def _ScbBusFaultIsInstrBusErr (s : Scb) : Nat := lnot (lnot (bfsr_ibuserr.get (bfsrLoad s)))
/-- Source `_ScbBusFaultAddrGet`: the BFAR register. -/
def _ScbBusFaultAddrGet (s : Scb) : Nat := s.bfar % 2 ^ 32

/-- Source `_ScbIsUsageFault`: double negation of the UFSR halfword. -/
def _ScbIsUsageFault (s : Scb) : Nat := lnot (lnot (ufsrLoad s))
/-- Source `_ScbUsageFaultIsDivByZero`: double negation of the `divbyzero` field. -/
def _ScbUsageFaultIsDivByZero (s : Scb) : Nat := lnot (lnot (ufsr_divbyzero.get (ufsrLoad s)))
/-- Source `_ScbUsageFaultIsUnaligned`: double negation of the `unaligned` field. -/
def _ScbUsageFaultIsUnaligned (s : Scb) : Nat := lnot (lnot (ufsr_unaligned.get (ufsrLoad s)))
/-- Source `_ScbUsageFaultIsNoCp`: double negation of the `nocp` field. -/
def _ScbUsageFaultIsNoCp (s : Scb) : Nat := lnot (lnot (ufsr_nocp.get (ufsrLoad s)))
/-- Source `_ScbUsageFaultIsInvalidPcLoad`: double negation of the `invpc` field. -/
def _ScbUsageFaultIsInvalidPcLoad (s : Scb) : Nat := lnot (lnot (ufsr_invpc.get (ufsrLoad s)))
/-- Source `_ScbUsageFaultIsInvalidState`: double negation of the `invstate` field. -/
def _ScbUsageFaultIsInvalidState (s : Scb) : Nat := lnot (lnot (ufsr_invstate.get (ufsrLoad s)))
/-- Source `_ScbUsageFaultIsUndefinedInstr`: double negation of the `undefinstr` field. -/
def _ScbUsageFaultIsUndefinedInstr (s : Scb) : Nat :=
  lnot (lnot (ufsr_undefinstr.get (ufsrLoad s)))

/-- Source `_ScbUsageFaultDivByZeroReset`: field `divbyzero` of UFSR assigned 1. -/
def _ScbUsageFaultDivByZeroReset (s : Scb) : Scb :=
  ufsrStore s (ufsr_divbyzero.set (ufsrLoad s) 1)
/-- Source `_ScbUsageFaultUnalignedReset`: field `unaligned` of UFSR assigned 1. -/
def _ScbUsageFaultUnalignedReset (s : Scb) : Scb :=
  ufsrStore s (ufsr_unaligned.set (ufsrLoad s) 1)
/-- Source `_ScbUsageFaultNoCpReset`: field `nocp` of UFSR assigned 1. -/
def _ScbUsageFaultNoCpReset (s : Scb) : Scb := ufsrStore s (ufsr_nocp.set (ufsrLoad s) 1)
/-- Source `_ScbUsageFaultInvalidPcLoadReset`: field `invpc` of UFSR assigned 1. -/
def _ScbUsageFaultInvalidPcLoadReset (s : Scb) : Scb :=
  ufsrStore s (ufsr_invpc.set (ufsrLoad s) 1)
/-- Source `_ScbUsageFaultInvalidStateReset`: field `invstate` of UFSR assigned 1. -/
def _ScbUsageFaultInvalidStateReset (s : Scb) : Scb :=
  ufsrStore s (ufsr_invstate.set (ufsrLoad s) 1)
/-- Source `_ScbUsageFaultUndefinedInstrReset`: field `undefinstr` of UFSR assigned 1. -/
def _ScbUsageFaultUndefinedInstrReset (s : Scb) : Scb :=
  ufsrStore s (ufsr_undefinstr.set (ufsrLoad s) 1)
/-- Source `_ScbUsageFaultAllFaultsReset`: stores `0xffff` to the UFSR halfword. -/
def _ScbUsageFaultAllFaultsReset (s : Scb) : Scb := ufsrStore s 0xffff

/-! ## Operation families and reference values used by the properties -/

/-- A register block with every register zero. -/
def scbZero : Scb :=
  { icsr := 0, vtor := 0, aircr := 0, scr := 0, ccr := 0, shpr := fun _ => 0, shcsr := 0,
    mmfsr := 0, bfsr := 0, ufsr := 0, hfsr := 0, mmfar := 0, bfar := 0 }

/-- A device that implements all eight bits of a priority byte. -/
def hwAllBits : Hw := { prioBits := 8 }

/-- The functions of `scb.h` that store to ICSR (all five of them). -/
inductive IcsrOp where
  | nmiPend
  | pendsvSet
  | pendsvClear
  | systickPendSet
  | systickPendClear

/-- Effect of a function of `scb.h` that stores to ICSR. -/
def IcsrOp.run : IcsrOp → Scb → Scb
  | .nmiPend => _ScbNmiPend
  | .pendsvSet => _ScbPendsvSet
  | .pendsvClear => _ScbPendsvClear
  | .systickPendSet => _ScbSystickPendSet
  | .systickPendClear => _ScbSystickPendClear

/-- The fault-status clearing functions of `scb.h`. -/
inductive FaultClearOp where
  | usageDivByZero
  | usageUnaligned
  | usageNoCp
  | usageInvalidPcLoad
  | usageInvalidState
  | usageUndefinedInstr
  | usageAll
  | memAll
  | busAll
  | hardAll

/-- Effect of a fault-status clearing function on the register block. -/
def FaultClearOp.run : FaultClearOp → Scb → Scb
  | .usageDivByZero => _ScbUsageFaultDivByZeroReset
  | .usageUnaligned => _ScbUsageFaultUnalignedReset
  | .usageNoCp => _ScbUsageFaultNoCpReset
  | .usageInvalidPcLoad => _ScbUsageFaultInvalidPcLoadReset
  | .usageInvalidState => _ScbUsageFaultInvalidStateReset
  | .usageUndefinedInstr => _ScbUsageFaultUndefinedInstrReset
  | .usageAll => _ScbUsageFaultAllFaultsReset
  | .memAll => _ScbMemFaultAllFaultsReset
  | .busAll => _ScbBusFaultAllFaultsReset
  | .hardAll => fun s => (_ScbHardFaultAllFaultsReset s).2

/-- Doubling search behind `specVtableThreshold`: the first of `t`, `2 * t`, `4 * t`, ...
that holds a table of `16 + n` four-byte entries. -/
def specThresholdFrom : Nat → Nat → Nat → Nat
  | 0, t, _ => t
  | fuel + 1, t, n => if 4 * (16 + n) ≤ t then t else specThresholdFrom fuel (2 * t) n

/-- Alignment threshold in the words of the specification: 128 bytes up to 16 interrupts,
256 up to 48, 512 up to 112, doubling thereafter. -/
def specVtableThreshold (n : Nat) : Nat := specThresholdFrom n 0x80 n

/-- The six sub-causes of a usage fault that `scb.h` can query and reset one by one. -/
inductive UsageCause where
  | divByZero
  | unaligned
  | noCp
  | invalidPcLoad
  | invalidState
  | undefinedInstr

/-- Query function of `scb.h` for a usage-fault sub-cause. -/
def UsageCause.query : UsageCause → Scb → Nat
  | .divByZero => _ScbUsageFaultIsDivByZero
  | .unaligned => _ScbUsageFaultIsUnaligned
  | .noCp => _ScbUsageFaultIsNoCp
  | .invalidPcLoad => _ScbUsageFaultIsInvalidPcLoad
  | .invalidState => _ScbUsageFaultIsInvalidState
  | .undefinedInstr => _ScbUsageFaultIsUndefinedInstr

/-- Reset function of `scb.h` for a usage-fault sub-cause. -/
def UsageCause.reset : UsageCause → Scb → Scb
  | .divByZero => _ScbUsageFaultDivByZeroReset
  | .unaligned => _ScbUsageFaultUnalignedReset
  | .noCp => _ScbUsageFaultNoCpReset
  | .invalidPcLoad => _ScbUsageFaultInvalidPcLoadReset
  | .invalidState => _ScbUsageFaultInvalidStateReset
  | .undefinedInstr => _ScbUsageFaultUndefinedInstrReset

/-! ## ARC interrupt binding (`include/arch/arc/arch.h`) -/

/-- A device token, as pasted into the symbol name `_<device>_int_priority`; coded as a
natural number. -/
abbrev Device : Type := Nat

/-- Modelled from the spec: `struct _IsrTableEntry` of `sw_isr_table.h` (header absent), the
pair which the initialiser `{pm, h}` fills: the argument handed to the handler and the
handler itself, both as addresses. -/
structure IsrTableEntry where
  arg : Nat
  isr : Nat

/-- Objects emitted at build time by the declarations of a program: the constant
`_<device>_int_priority` of each declared device and the entry `_isr_irq<i>` of each
declared interrupt line. -/
structure ArcImage where
  int_priority : Device → Option Nat
  isr_irq : Nat → Option IsrTableEntry

/-- An image without any declaration. -/
def ArcImage.empty : ArcImage := { int_priority := fun _ => none, isr_irq := fun _ => none }

/-- Source `IRQ_CONNECT_STATIC(device, i, p, h, pm, f)`: defines the constant
`_<device>_int_priority` with value `(p)` as an `unsigned int`, and the table entry
`_isr_irq<i>` initialised to `{pm, h}`.  The flags `f` are not used by the expansion. -/
def IRQ_CONNECT_STATIC (img : ArcImage) (device : Device) (i p h pm _f : Nat) : ArcImage :=
  { int_priority := Function.update img.int_priority device (some (p % 2 ^ 32)),
    isr_irq := Function.update img.isr_irq i (some { arg := pm, isr := h }) }

/-- Priority registers of the interrupt unit, one per interrupt line. -/
structure IrqUnit where
  priority : Nat → Nat

/-- Modelled from the spec: `_irq_priority_set(irq, prio)`, declared in `arch.h` and defined
in a C file that is absent.  The specification says that the call copies the recorded
priority into the hardware priority register for that IRQ. -/
def _irq_priority_set (u : IrqUnit) (irq pri : Nat) : IrqUnit :=
  { priority := Function.update u.priority irq pri }

/-- Source `IRQ_CONFIG(device, i)`: the call `_irq_priority_set(i, _<device>_int_priority)`.
Without a declaration of the device the constant does not exist and there is no call. -/
def IRQ_CONFIG (img : ArcImage) (u : IrqUnit) (device : Device) (i : Nat) : Option IrqUnit :=
  match img.int_priority device with
  | some p => some (_irq_priority_set u (i % 2 ^ 32) p)
  | none => none

/-! ## Trace event identifiers (`subsys/tracing/sysview/tracing_sysview_ids.h`) -/

/-- Source `TID_OFFSET`. -/
def TID_OFFSET : Nat := 32

/-- Source `TID_SCHED_LOCK`. -/
def TID_SCHED_LOCK : Nat := (0 + TID_OFFSET) % 2 ^ 32
/-- Source `TID_SCHED_UNLOCK`. -/
def TID_SCHED_UNLOCK : Nat := (1 + TID_OFFSET) % 2 ^ 32
/-- Source `TID_BUSYWAIT`. -/
def TID_BUSYWAIT : Nat := (2 + TID_OFFSET) % 2 ^ 32
/-- Source `TID_IRQ_ENABLE`. -/
def TID_IRQ_ENABLE : Nat := (3 + TID_OFFSET) % 2 ^ 32
/-- Source `TID_IRQ_DISABLE`. -/
def TID_IRQ_DISABLE : Nat := (4 + TID_OFFSET) % 2 ^ 32
/-- Source `TID_MUTEX_INIT`. -/
def TID_MUTEX_INIT : Nat := (5 + TID_OFFSET) % 2 ^ 32
/-- Source `TID_MUTEX_UNLOCK`. -/
def TID_MUTEX_UNLOCK : Nat := (6 + TID_OFFSET) % 2 ^ 32
/-- Source `TID_MUTEX_LOCK`. -/
def TID_MUTEX_LOCK : Nat := (7 + TID_OFFSET) % 2 ^ 32
/-- Source `TID_SEMA_INIT`. -/
def TID_SEMA_INIT : Nat := (8 + TID_OFFSET) % 2 ^ 32
/-- Source `TID_SEMA_GIVE`. -/
def TID_SEMA_GIVE : Nat := (9 + TID_OFFSET) % 2 ^ 32
/-- Source `TID_SEMA_TAKE`. -/
def TID_SEMA_TAKE : Nat := (10 + TID_OFFSET) % 2 ^ 32
/-- Source `TID_SEMA_RESET`. -/
def TID_SEMA_RESET : Nat := (59 + TID_OFFSET) % 2 ^ 32
/-- Source `TID_QUEUE_INIT`. -/
def TID_QUEUE_INIT : Nat := (11 + TID_OFFSET) % 2 ^ 32
/-- Source `TID_QUEUE_APPEND`. -/
def TID_QUEUE_APPEND : Nat := (12 + TID_OFFSET) % 2 ^ 32
/-- Source `TID_QUEUE_ALLOC_APPEND`. -/
def TID_QUEUE_ALLOC_APPEND : Nat := (13 + TID_OFFSET) % 2 ^ 32
/-- Source `TID_QUEUE_PREPEND`. -/
def TID_QUEUE_PREPEND : Nat := (14 + TID_OFFSET) % 2 ^ 32
/-- Source `TID_QUEUE_ALLOC_PREPEND`. -/
def TID_QUEUE_ALLOC_PREPEND : Nat := (15 + TID_OFFSET) % 2 ^ 32
/-- Source `TID_QUEUE_INSERT`. -/
def TID_QUEUE_INSERT : Nat := (16 + TID_OFFSET) % 2 ^ 32
/-- Source `TID_QUEUE_APPEND_LIST`. -/
def TID_QUEUE_APPEND_LIST : Nat := (17 + TID_OFFSET) % 2 ^ 32
/-- Source `TID_QUEUE_GET`. -/
def TID_QUEUE_GET : Nat := (18 + TID_OFFSET) % 2 ^ 32
/-- Source `TID_QUEUE_REMOVE`. -/
def TID_QUEUE_REMOVE : Nat := (19 + TID_OFFSET) % 2 ^ 32
/-- Source `TID_QUEUE_CANCEL_WAIT`. -/
def TID_QUEUE_CANCEL_WAIT : Nat := (20 + TID_OFFSET) % 2 ^ 32
/-- Source `TID_QUEUE_PEAK_HEAD`. -/
def TID_QUEUE_PEAK_HEAD : Nat := (21 + TID_OFFSET) % 2 ^ 32
/-- Source `TID_QUEUE_PEAK_TAIL`. -/
def TID_QUEUE_PEAK_TAIL : Nat := (22 + TID_OFFSET) % 2 ^ 32
/-- Source `TID_STACK_INIT`. -/
def TID_STACK_INIT : Nat := (23 + TID_OFFSET) % 2 ^ 32
/-- Source `TID_STACK_PUSH`. -/
def TID_STACK_PUSH : Nat := (24 + TID_OFFSET) % 2 ^ 32
/-- Source `TID_STACK_POP`. -/
def TID_STACK_POP : Nat := (25 + TID_OFFSET) % 2 ^ 32
/-- Source `TID_QUEUE_STACK_CLEANUP`. -/
def TID_QUEUE_STACK_CLEANUP : Nat := (26 + TID_OFFSET) % 2 ^ 32
/-- Source `TID_MSGQ_INIT`. -/
def TID_MSGQ_INIT : Nat := (27 + TID_OFFSET) % 2 ^ 32
/-- Source `TID_MSGQ_PUT`. -/
def TID_MSGQ_PUT : Nat := (28 + TID_OFFSET) % 2 ^ 32
/-- Source `TID_MSGQ_GET`. -/
def TID_MSGQ_GET : Nat := (29 + TID_OFFSET) % 2 ^ 32
/-- Source `TID_MSGQ_CLEANUP`. -/
def TID_MSGQ_CLEANUP : Nat := (30 + TID_OFFSET) % 2 ^ 32
/-- Source `TID_MSQG_PEEK`. -/
def TID_MSQG_PEEK : Nat := (31 + TID_OFFSET) % 2 ^ 32
/-- Source `TID_MSGQ_PURGE`. -/
def TID_MSGQ_PURGE : Nat := (32 + TID_OFFSET) % 2 ^ 32
/-- Source `TID_MBOX_INIT`. -/
def TID_MBOX_INIT : Nat := (33 + TID_OFFSET) % 2 ^ 32
/-- Source `TID_MBOX_PUT`. -/
def TID_MBOX_PUT : Nat := (34 + TID_OFFSET) % 2 ^ 32
/-- Source `TID_MBOX_ASYNC_PUT`. -/
def TID_MBOX_ASYNC_PUT : Nat := (35 + TID_OFFSET) % 2 ^ 32
/-- Source `TID_MBOX_GET`. -/
def TID_MBOX_GET : Nat := (36 + TID_OFFSET) % 2 ^ 32
/-- Source `TID_MBOX_DATA_GET`. -/
def TID_MBOX_DATA_GET : Nat := (37 + TID_OFFSET) % 2 ^ 32
/-- Source `TID_MBOX_DATA_BLOCK_GET`. -/
def TID_MBOX_DATA_BLOCK_GET : Nat := (38 + TID_OFFSET) % 2 ^ 32
/-- Source `TID_PIPE_INIT`. -/
def TID_PIPE_INIT : Nat := (39 + TID_OFFSET) % 2 ^ 32
/-- Source `TID_PIPE_CLEANUP`. -/
def TID_PIPE_CLEANUP : Nat := (40 + TID_OFFSET) % 2 ^ 32
/-- Source `TID_PIPE_PUT`. -/
def TID_PIPE_PUT : Nat := (41 + TID_OFFSET) % 2 ^ 32
/-- Source `TID_PIPE_GET`. -/
def TID_PIPE_GET : Nat := (42 + TID_OFFSET) % 2 ^ 32
/-- Source `TID_PIPE_BLOCK_GET`. -/
def TID_PIPE_BLOCK_GET : Nat := (43 + TID_OFFSET) % 2 ^ 32
/-- Source `TID_HEAP_INIT`. -/
def TID_HEAP_INIT : Nat := (44 + TID_OFFSET) % 2 ^ 32
/-- Source `TID_HEAP_ALLOC`. -/
def TID_HEAP_ALLOC : Nat := (45 + TID_OFFSET) % 2 ^ 32
/-- Source `TID_HEAP_FREE`. -/
def TID_HEAP_FREE : Nat := (46 + TID_OFFSET) % 2 ^ 32
/-- Source `TID_HEAP_ALIGNED_ALLOC`. -/
def TID_HEAP_ALIGNED_ALLOC : Nat := (47 + TID_OFFSET) % 2 ^ 32
/-- Source `TID_MSLAB_INIT`. -/
def TID_MSLAB_INIT : Nat := (52 + TID_OFFSET) % 2 ^ 32
/-- Source `TID_MSLAB_ALLOC`. -/
def TID_MSLAB_ALLOC : Nat := (53 + TID_OFFSET) % 2 ^ 32
/-- Source `TID_MSLAB_FREE`. -/
def TID_MSLAB_FREE : Nat := (54 + TID_OFFSET) % 2 ^ 32
/-- Source `TID_TIMER_INIT`. -/
def TID_TIMER_INIT : Nat := (55 + TID_OFFSET) % 2 ^ 32
/-- Source `TID_TIMER_START`. -/
def TID_TIMER_START : Nat := (56 + TID_OFFSET) % 2 ^ 32
/-- Source `TID_TIMER_STOP`. -/
def TID_TIMER_STOP : Nat := (57 + TID_OFFSET) % 2 ^ 32
/-- Source `TID_TIMER_STATUS_SYNC`. -/
def TID_TIMER_STATUS_SYNC : Nat := (58 + TID_OFFSET) % 2 ^ 32
/-- Source `TID_TIMER_USER_DATA_GET`. -/
def TID_TIMER_USER_DATA_GET : Nat := (60 + TID_OFFSET) % 2 ^ 32
/-- Source `TID_TIMER_EXPIRY_FN`. -/
def TID_TIMER_EXPIRY_FN : Nat := (61 + TID_OFFSET) % 2 ^ 32
/-- Source `TID_TIMER_STOP_FN`. -/
def TID_TIMER_STOP_FN : Nat := (62 + TID_OFFSET) % 2 ^ 32
/-- Source `TID_SLEEP`. -/
def TID_SLEEP : Nat := (63 + TID_OFFSET) % 2 ^ 32
/-- Source `TID_MSLEEP`. -/
def TID_MSLEEP : Nat := (64 + TID_OFFSET) % 2 ^ 32
/-- Source `TID_USLEEP`. -/
def TID_USLEEP : Nat := (65 + TID_OFFSET) % 2 ^ 32
/-- Source `TID_THREAD_PRIORITY_SET`. -/
def TID_THREAD_PRIORITY_SET : Nat := (66 + TID_OFFSET) % 2 ^ 32
/-- Source `TID_THREAD_WAKEUP`. -/
def TID_THREAD_WAKEUP : Nat := (67 + TID_OFFSET) % 2 ^ 32
/-- Source `TID_THREAD_ABORT`. -/
def TID_THREAD_ABORT : Nat := (68 + TID_OFFSET) % 2 ^ 32
/-- Source `TID_THREAD_START`. -/
def TID_THREAD_START : Nat := (69 + TID_OFFSET) % 2 ^ 32
/-- Source `TID_THREAD_SUSPEND`. -/
def TID_THREAD_SUSPEND : Nat := (70 + TID_OFFSET) % 2 ^ 32
/-- Source `TID_THREAD_RESUME`. -/
def TID_THREAD_RESUME : Nat := (71 + TID_OFFSET) % 2 ^ 32
/-- Source `TID_THREAD_JOIN`. -/
def TID_THREAD_JOIN : Nat := (72 + TID_OFFSET) % 2 ^ 32
/-- Source `TID_THREAD_YIELD`. -/
def TID_THREAD_YIELD : Nat := (73 + TID_OFFSET) % 2 ^ 32
/-- Source `TID_THREAD_USERMODE_ENTER`. -/
def TID_THREAD_USERMODE_ENTER : Nat := (74 + TID_OFFSET) % 2 ^ 32
/-- Source `TID_THREAD_FOREACH`. -/
def TID_THREAD_FOREACH : Nat := (75 + TID_OFFSET) % 2 ^ 32
/-- Source `TID_THREAD_FOREACH_UNLOCKED`. -/
def TID_THREAD_FOREACH_UNLOCKED : Nat := (76 + TID_OFFSET) % 2 ^ 32
/-- Source `TID_THREAD_NAME_SET`. -/
def TID_THREAD_NAME_SET : Nat := (123 + TID_OFFSET) % 2 ^ 32
/-- Source `TID_CONDVAR_INIT`. -/
def TID_CONDVAR_INIT : Nat := (77 + TID_OFFSET) % 2 ^ 32
/-- Source `TID_CONDVAR_SIGNAL`. -/
def TID_CONDVAR_SIGNAL : Nat := (78 + TID_OFFSET) % 2 ^ 32
/-- Source `TID_CONDVAR_BROADCAST`. -/
def TID_CONDVAR_BROADCAST : Nat := (79 + TID_OFFSET) % 2 ^ 32
/-- Source `TID_CONDVAR_WAIT`. -/
def TID_CONDVAR_WAIT : Nat := (80 + TID_OFFSET) % 2 ^ 32
/-- Source `TID_WORK_CANCEL`. -/
def TID_WORK_CANCEL : Nat := (81 + TID_OFFSET) % 2 ^ 32
/-- Source `TID_WORK_CANCEL_DELAYABLE`. -/
def TID_WORK_CANCEL_DELAYABLE : Nat := (82 + TID_OFFSET) % 2 ^ 32
/-- Source `TID_WORK_CANCEL_DELAYABLE_SYNC`. -/
def TID_WORK_CANCEL_DELAYABLE_SYNC : Nat := (83 + TID_OFFSET) % 2 ^ 32
/-- Source `TID_WORK_CANCEL_SYNC`. -/
def TID_WORK_CANCEL_SYNC : Nat := (84 + TID_OFFSET) % 2 ^ 32
/-- Source `TID_WORK_DELAYABLE_INIT`. -/
def TID_WORK_DELAYABLE_INIT : Nat := (85 + TID_OFFSET) % 2 ^ 32
/-- Source `TID_WORK_QUEUE_DRAIN`. -/
def TID_WORK_QUEUE_DRAIN : Nat := (86 + TID_OFFSET) % 2 ^ 32
/-- Source `TID_WORK_FLUSH`. -/
def TID_WORK_FLUSH : Nat := (87 + TID_OFFSET) % 2 ^ 32
/-- Source `TID_WORK_FLUSH_DELAYABLE`. -/
def TID_WORK_FLUSH_DELAYABLE : Nat := (88 + TID_OFFSET) % 2 ^ 32
/-- Source `TID_WORK_INIT`. -/
def TID_WORK_INIT : Nat := (89 + TID_OFFSET) % 2 ^ 32
/-- Source `TID_WORK_POLL_CANCEL`. -/
def TID_WORK_POLL_CANCEL : Nat := (90 + TID_OFFSET) % 2 ^ 32
/-- Source `TID_WORK_POLL_INIT`. -/
def TID_WORK_POLL_INIT : Nat := (91 + TID_OFFSET) % 2 ^ 32
/-- Source `TID_WORK_POLL_SUBMIT`. -/
def TID_WORK_POLL_SUBMIT : Nat := (92 + TID_OFFSET) % 2 ^ 32
/-- Source `TID_WORK_POLL_SUBMIT_TO_QUEUE`. -/
def TID_WORK_POLL_SUBMIT_TO_QUEUE : Nat := (93 + TID_OFFSET) % 2 ^ 32
/-- Source `TID_WORK_QUEUE_START`. -/
def TID_WORK_QUEUE_START : Nat := (94 + TID_OFFSET) % 2 ^ 32
/-- Source `TID_WORK_RESCHEDULE`. -/
def TID_WORK_RESCHEDULE : Nat := (95 + TID_OFFSET) % 2 ^ 32
/-- Source `TID_WORK_RESCHEDULE_FOR_QUEUE`. -/
def TID_WORK_RESCHEDULE_FOR_QUEUE : Nat := (96 + TID_OFFSET) % 2 ^ 32
/-- Source `TID_WORK_SCHEDULE`. -/
def TID_WORK_SCHEDULE : Nat := (97 + TID_OFFSET) % 2 ^ 32
/-- Source `TID_WORK_SCHEDULE_FOR_QUEUE`. -/
def TID_WORK_SCHEDULE_FOR_QUEUE : Nat := (98 + TID_OFFSET) % 2 ^ 32
/-- Source `TID_WORK_SUBMIT`. -/
def TID_WORK_SUBMIT : Nat := (99 + TID_OFFSET) % 2 ^ 32
/-- Source `TID_WORK_SUBMIT_TO_QUEUE`. -/
def TID_WORK_SUBMIT_TO_QUEUE : Nat := (100 + TID_OFFSET) % 2 ^ 32
/-- Source `TID_WORK_QUEUE_UNPLUG`. -/
def TID_WORK_QUEUE_UNPLUG : Nat := (101 + TID_OFFSET) % 2 ^ 32
/-- Source `TID_WORK_QUEUE_INIT`. -/
def TID_WORK_QUEUE_INIT : Nat := (102 + TID_OFFSET) % 2 ^ 32
/-- Source `TID_FIFO_INIT`. -/
def TID_FIFO_INIT : Nat := (110 + TID_OFFSET) % 2 ^ 32
/-- Source `TID_FIFO_CANCEL_WAIT`. -/
def TID_FIFO_CANCEL_WAIT : Nat := (111 + TID_OFFSET) % 2 ^ 32
/-- Source `TID_FIFO_ALLOC_PUT`. -/
def TID_FIFO_ALLOC_PUT : Nat := (112 + TID_OFFSET) % 2 ^ 32
/-- Source `TID_FIFO_PUT_LIST`. -/
def TID_FIFO_PUT_LIST : Nat := (113 + TID_OFFSET) % 2 ^ 32
/-- Source `TID_FIFO_PUT_SLIST`. -/
def TID_FIFO_PUT_SLIST : Nat := (114 + TID_OFFSET) % 2 ^ 32
/-- Source `TID_FIFO_PEAK_HEAD`. -/
def TID_FIFO_PEAK_HEAD : Nat := (115 + TID_OFFSET) % 2 ^ 32
/-- Source `TID_FIFO_PEAK_TAIL`. -/
def TID_FIFO_PEAK_TAIL : Nat := (116 + TID_OFFSET) % 2 ^ 32
/-- Source `TID_FIFO_PUT`. -/
def TID_FIFO_PUT : Nat := (117 + TID_OFFSET) % 2 ^ 32
/-- Source `TID_FIFO_GET`. -/
def TID_FIFO_GET : Nat := (118 + TID_OFFSET) % 2 ^ 32
/-- Source `TID_LIFO_INIT`. -/
def TID_LIFO_INIT : Nat := (119 + TID_OFFSET) % 2 ^ 32
/-- Source `TID_LIFO_PUT`. -/
def TID_LIFO_PUT : Nat := (120 + TID_OFFSET) % 2 ^ 32
/-- Source `TID_LIFO_GET`. -/
def TID_LIFO_GET : Nat := (121 + TID_OFFSET) % 2 ^ 32
/-- Source `TID_LIFO_ALLOC_PUT`. -/
def TID_LIFO_ALLOC_PUT : Nat := (122 + TID_OFFSET) % 2 ^ 32
/-- Source `TID_PM_SYSTEM_SUSPEND`. -/
def TID_PM_SYSTEM_SUSPEND : Nat := (124 + TID_OFFSET) % 2 ^ 32
/-- Source `TID_PM_DEVICE_RUNTIME_GET`. -/
def TID_PM_DEVICE_RUNTIME_GET : Nat := (125 + TID_OFFSET) % 2 ^ 32
/-- Source `TID_PM_DEVICE_RUNTIME_PUT`. -/
def TID_PM_DEVICE_RUNTIME_PUT : Nat := (126 + TID_OFFSET) % 2 ^ 32
/-- Source `TID_PM_DEVICE_RUNTIME_PUT_ASYNC`. -/
def TID_PM_DEVICE_RUNTIME_PUT_ASYNC : Nat := (127 + TID_OFFSET) % 2 ^ 32
/-- Source `TID_PM_DEVICE_RUNTIME_ENABLE`. -/
def TID_PM_DEVICE_RUNTIME_ENABLE : Nat := (128 + TID_OFFSET) % 2 ^ 32
/-- Source `TID_PM_DEVICE_RUNTIME_DISABLE`. -/
def TID_PM_DEVICE_RUNTIME_DISABLE : Nat := (129 + TID_OFFSET) % 2 ^ 32
/-- Source `TID_SYSCALL`. -/
def TID_SYSCALL : Nat := (130 + TID_OFFSET) % 2 ^ 32

/-- Every `TID_*` constant of the header other than `TID_OFFSET`, in source order. -/
def tidTable : List Nat :=
  [TID_SCHED_LOCK, TID_SCHED_UNLOCK, TID_BUSYWAIT, TID_IRQ_ENABLE, TID_IRQ_DISABLE,
    TID_MUTEX_INIT, TID_MUTEX_UNLOCK, TID_MUTEX_LOCK, TID_SEMA_INIT, TID_SEMA_GIVE,
    TID_SEMA_TAKE, TID_SEMA_RESET, TID_QUEUE_INIT, TID_QUEUE_APPEND, TID_QUEUE_ALLOC_APPEND,
    TID_QUEUE_PREPEND, TID_QUEUE_ALLOC_PREPEND, TID_QUEUE_INSERT, TID_QUEUE_APPEND_LIST,
    TID_QUEUE_GET, TID_QUEUE_REMOVE, TID_QUEUE_CANCEL_WAIT, TID_QUEUE_PEAK_HEAD,
    TID_QUEUE_PEAK_TAIL, TID_STACK_INIT, TID_STACK_PUSH, TID_STACK_POP, TID_QUEUE_STACK_CLEANUP,
    TID_MSGQ_INIT, TID_MSGQ_PUT, TID_MSGQ_GET, TID_MSGQ_CLEANUP, TID_MSQG_PEEK, TID_MSGQ_PURGE,
    TID_MBOX_INIT, TID_MBOX_PUT, TID_MBOX_ASYNC_PUT, TID_MBOX_GET, TID_MBOX_DATA_GET,
    TID_MBOX_DATA_BLOCK_GET, TID_PIPE_INIT, TID_PIPE_CLEANUP, TID_PIPE_PUT, TID_PIPE_GET,
    TID_PIPE_BLOCK_GET, TID_HEAP_INIT, TID_HEAP_ALLOC, TID_HEAP_FREE, TID_HEAP_ALIGNED_ALLOC,
    TID_MSLAB_INIT, TID_MSLAB_ALLOC, TID_MSLAB_FREE, TID_TIMER_INIT, TID_TIMER_START,
    TID_TIMER_STOP, TID_TIMER_STATUS_SYNC, TID_TIMER_USER_DATA_GET, TID_TIMER_EXPIRY_FN,
    TID_TIMER_STOP_FN, TID_SLEEP, TID_MSLEEP, TID_USLEEP, TID_THREAD_PRIORITY_SET,
    TID_THREAD_WAKEUP, TID_THREAD_ABORT, TID_THREAD_START, TID_THREAD_SUSPEND,
    TID_THREAD_RESUME, TID_THREAD_JOIN, TID_THREAD_YIELD, TID_THREAD_USERMODE_ENTER,
    TID_THREAD_FOREACH, TID_THREAD_FOREACH_UNLOCKED, TID_THREAD_NAME_SET, TID_CONDVAR_INIT,
    TID_CONDVAR_SIGNAL, TID_CONDVAR_BROADCAST, TID_CONDVAR_WAIT, TID_WORK_CANCEL,
    TID_WORK_CANCEL_DELAYABLE, TID_WORK_CANCEL_DELAYABLE_SYNC, TID_WORK_CANCEL_SYNC,
    TID_WORK_DELAYABLE_INIT, TID_WORK_QUEUE_DRAIN, TID_WORK_FLUSH, TID_WORK_FLUSH_DELAYABLE,
    TID_WORK_INIT, TID_WORK_POLL_CANCEL, TID_WORK_POLL_INIT, TID_WORK_POLL_SUBMIT,
    TID_WORK_POLL_SUBMIT_TO_QUEUE, TID_WORK_QUEUE_START, TID_WORK_RESCHEDULE,
    TID_WORK_RESCHEDULE_FOR_QUEUE, TID_WORK_SCHEDULE, TID_WORK_SCHEDULE_FOR_QUEUE,
    TID_WORK_SUBMIT, TID_WORK_SUBMIT_TO_QUEUE, TID_WORK_QUEUE_UNPLUG, TID_WORK_QUEUE_INIT,
    TID_FIFO_INIT, TID_FIFO_CANCEL_WAIT, TID_FIFO_ALLOC_PUT, TID_FIFO_PUT_LIST,
    TID_FIFO_PUT_SLIST, TID_FIFO_PEAK_HEAD, TID_FIFO_PEAK_TAIL, TID_FIFO_PUT, TID_FIFO_GET,
    TID_LIFO_INIT, TID_LIFO_PUT, TID_LIFO_GET, TID_LIFO_ALLOC_PUT, TID_PM_SYSTEM_SUSPEND,
    TID_PM_DEVICE_RUNTIME_GET, TID_PM_DEVICE_RUNTIME_PUT, TID_PM_DEVICE_RUNTIME_PUT_ASYNC,
    TID_PM_DEVICE_RUNTIME_ENABLE, TID_PM_DEVICE_RUNTIME_DISABLE, TID_SYSCALL]

/-! ## Bit-level lemmas -/

theorem lnot_lnot (x : Nat) : lnot (lnot x) = if x = 0 then 0 else 1 := by
  unfold lnot
  by_cases h : x = 0 <;> simp [h]

theorem testBit_w1c (old w i : Nat) :
    (w1c old w).testBit i = (old.testBit i && !w.testBit i) := by
  simp only [w1c, Nat.testBit_xor, Nat.testBit_land]
  cases old.testBit i <;> cases w.testBit i <;> rfl

theorem BitField.testBit_set (f : BitField) (v x i : Nat) :
    (f.set v x).testBit i
      = if f.pos ≤ i ∧ i < f.pos + f.width then x.testBit (i - f.pos) else v.testBit i := by
  simp only [BitField.set, Nat.testBit_lor, Nat.testBit_xor, Nat.testBit_land,
    Nat.testBit_shiftLeft, Nat.testBit_two_pow_sub_one, Nat.testBit_mod_two_pow]
  by_cases h1 : f.pos ≤ i
  · by_cases h2 : i < f.pos + f.width
    · have h3 : i - f.pos < f.width := by omega
      simp [h1, h2, h3]
    · have h3 : ¬ i - f.pos < f.width := by omega
      simp [h1, h2, h3]
  · simp [h1]

theorem BitField.testBit_get (f : BitField) (v i : Nat) :
    (f.get v).testBit i = (decide (i < f.width) && v.testBit (f.pos + i)) := by
  simp only [BitField.get, Nat.testBit_mod_two_pow, Nat.testBit_shiftRight]

theorem BitField.get_eq_div (f : BitField) (v : Nat) :
    f.get v = v / 2 ^ f.pos % 2 ^ f.width := by
  simp only [BitField.get, Nat.shiftRight_eq_div_pow]

theorem BitField.get_bit (p v : Nat) :
    BitField.get ⟨p, 1⟩ v = (v.testBit p).toNat := by
  simp only [BitField.get, Nat.toNat_testBit, Nat.shiftRight_eq_div_pow, pow_one]

theorem BitField.get_set_same (f : BitField) (v x : Nat) :
    f.get (f.set v x) = x % 2 ^ f.width := by
  apply Nat.eq_of_testBit_eq
  intro i
  rw [BitField.testBit_get, BitField.testBit_set, Nat.testBit_mod_two_pow]
  by_cases h : i < f.width
  · have h2 : f.pos ≤ f.pos + i ∧ f.pos + i < f.pos + f.width := by omega
    simp [h, h2]
  · simp [h]

theorem lnot_lnot_bit (p v : Nat) : lnot (lnot (BitField.get ⟨p, 1⟩ v)) = BitField.get ⟨p, 1⟩ v := by
  rw [lnot_lnot, BitField.get_bit]
  cases v.testBit p <;> rfl

/-! ## Priority get and set -/

theorem excPrioGet_of_valid (s : Scb) (exc : Nat) (h : 3 < exc ∧ exc < 16) :
    _ScbExcPrioGet s exc = .done (shprLoad s ⟨exc - 4, by omega⟩) s := by
  have hm : exc % 2 ^ 8 = exc := Nat.mod_eq_of_lt (by omega)
  simp only [_ScbExcPrioGet, __ASSERT, hm, dif_pos h]

theorem excPrioSet_of_valid (hw : Hw) (s : Scb) (exc pri : Nat) (h : 3 < exc ∧ exc < 16) :
    _ScbExcPrioSet hw s exc pri = .done () (shprStore hw s ⟨exc - 4, by omega⟩ pri) := by
  have hm : exc % 2 ^ 8 = exc := Nat.mod_eq_of_lt (by omega)
  simp only [_ScbExcPrioSet, __ASSERT, hm, dif_pos h]

theorem excPrio_of_invalid (hw : Hw) (s : Scb) (exc pri : Nat) (h8 : exc ≤ 255)
    (h : exc < 4 ∨ 15 < exc) :
    _ScbExcPrioGet s exc = .assertFailed s ∧ _ScbExcPrioSet hw s exc pri = .assertFailed s := by
  have h2 : ¬ (3 < exc % 2 ^ 8 ∧ exc % 2 ^ 8 < 16) := by omega
  simp only [_ScbExcPrioGet, _ScbExcPrioSet, __ASSERT, dif_neg h2, and_self]

/-- C1: for every exception number in 4..15 and priority in 0..255, `_ScbExcPrioSet`
followed by `_ScbExcPrioGet` on the same exception runs past both assertions and returns
the priority with only the implemented high bits kept; with all eight bits implemented
the value read back is the priority itself. -/
theorem C1_prio_round_trip (hw : Hw) (s : Scb) (exc pri : Nat)
    (hexc : 4 ≤ exc ∧ exc ≤ 15) (hpri : pri ≤ 255) :
    (_ScbExcPrioSet hw s exc pri).succeeded = true ∧
    _ScbExcPrioGet (_ScbExcPrioSet hw s exc pri).state exc
      = .done (pri - pri % 2 ^ (8 - hw.prioBits)) (_ScbExcPrioSet hw s exc pri).state ∧
    (8 ≤ hw.prioBits →
      _ScbExcPrioGet (_ScbExcPrioSet hw s exc pri).state exc
        = .done pri (_ScbExcPrioSet hw s exc pri).state) := by
  have h : 3 < exc ∧ exc < 16 := by omega
  have hp : pri % 2 ^ 8 = pri := Nat.mod_eq_of_lt (by omega)
  have hlt : (pri - pri % 2 ^ (8 - hw.prioBits)) % 2 ^ 8 = pri - pri % 2 ^ (8 - hw.prioBits) :=
    Nat.mod_eq_of_lt (by omega)
  have key : _ScbExcPrioGet (_ScbExcPrioSet hw s exc pri).state exc
      = .done (pri - pri % 2 ^ (8 - hw.prioBits)) (_ScbExcPrioSet hw s exc pri).state := by
    simp only [excPrioSet_of_valid hw s exc pri h, Outcome.state, excPrioGet_of_valid _ exc h,
      shprStore, shprLoad, Function.update_same, hp, hlt]
  refine ⟨by simp only [excPrioSet_of_valid hw s exc pri h, Outcome.succeeded], key, ?_⟩
  intro h8
  rw [key]
  have : 8 - hw.prioBits = 0 := by omega
  simp [this, Nat.mod_one]

/-- Witness for C1: exception 14 (PendSV) set to priority 0xA5 on a device with all eight
priority bits reads back 0xA5. -/
theorem C1_prio_round_trip_witness :
    (4 ≤ 14 ∧ 14 ≤ 15) ∧ 0xA5 ≤ 255 ∧
    _ScbExcPrioGet (_ScbExcPrioSet hwAllBits scbZero 14 0xA5).state 14
      = .done 0xA5 (_ScbExcPrioSet hwAllBits scbZero 14 0xA5).state :=
  ⟨by decide, by decide,
    (C1_prio_round_trip hwAllBits scbZero 14 0xA5 (by decide) (by decide)).2.2 (by decide)⟩

/-- C2: for every exception number in 0..255 (the parameter is a `uint8_t`) outside 4..15,
so for 0, 1, 2, 3 and 16..255, both `_ScbExcPrioGet` and `_ScbExcPrioSet` fail their
assertion and the failing set leaves the register block, hence every slot of the priority
array, unchanged; for every exception number in 4..15 neither call fails. -/
theorem C2_prio_rejects_outside_range (hw : Hw) (s : Scb) (exc pri : Nat) (h8 : exc ≤ 255) :
    ((exc < 4 ∨ 15 < exc) →
      _ScbExcPrioGet s exc = .assertFailed s ∧
      _ScbExcPrioSet hw s exc pri = .assertFailed s ∧
      ∀ i, (_ScbExcPrioSet hw s exc pri).state.shpr i = s.shpr i) ∧
    ((4 ≤ exc ∧ exc ≤ 15) →
      (_ScbExcPrioGet s exc).succeeded = true ∧
      (_ScbExcPrioSet hw s exc pri).succeeded = true) := by
  constructor
  · intro hout
    have h := excPrio_of_invalid hw s exc pri h8 hout
    refine ⟨h.1, h.2, ?_⟩
    intro i
    rw [h.2]
    rfl
  · intro hin
    have h : 3 < exc ∧ exc < 16 := by omega
    simp only [excPrioGet_of_valid s exc h, excPrioSet_of_valid hw s exc pri h,
      Outcome.succeeded, and_self]

/-- Witness for C2: exception 3 (HardFault) is rejected by both calls, exception 4 is
accepted by both. -/
theorem C2_prio_rejects_outside_range_witness :
    ((3 ≤ 255 ∧ (3 < 4 ∨ 15 < 3)) ∧ (4 ≤ 255 ∧ 4 ≤ 4 ∧ 4 ≤ 15)) ∧
    (_ScbExcPrioGet scbZero 3 = .assertFailed scbZero ∧
      _ScbExcPrioSet hwAllBits scbZero 3 7 = .assertFailed scbZero) ∧
    ((_ScbExcPrioGet scbZero 4).succeeded = true ∧
      (_ScbExcPrioSet hwAllBits scbZero 4 7).succeeded = true) :=
  ⟨by decide,
   ⟨((C2_prio_rejects_outside_range hwAllBits scbZero 3 7 (by decide)).1
       (Or.inl (by decide))).1,
     ((C2_prio_rejects_outside_range hwAllBits scbZero 3 7 (by decide)).1
       (Or.inl (by decide))).2.1⟩,
   (C2_prio_rejects_outside_range hwAllBits scbZero 4 7 (by decide)).2 ⟨by decide, by decide⟩⟩

/-! ## Priority groups -/

/-- C3: `_ScbNumPriGroupGet` returns `2 ^ (7 - prigroup)` where `prigroup` is the value
held by bits 8..10 of AIRCR at the time of the call; in particular, for every `p` in 0..7,
in the state whose priority-group field has just been given the value `p` it returns
`2 ^ (7 - p)`. -/
theorem C3_num_pri_group (s : Scb) :
    _ScbNumPriGroupGet s = 2 ^ (7 - s.aircr / 2 ^ 8 % 2 ^ 3) ∧
    s.aircr / 2 ^ 8 % 2 ^ 3 ≤ 7 ∧
    ∀ p, p ≤ 7 →
      _ScbNumPriGroupGet { s with aircr := aircr_prigroup.set s.aircr p } = 2 ^ (7 - p) := by
  have hfield : ∀ a : Nat, aircr_prigroup.get (a % 2 ^ 32) = a / 2 ^ 8 % 2 ^ 3 := by
    intro a
    simp only [BitField.get_eq_div, aircr_prigroup]
    omega
  refine ⟨?_, by omega, ?_⟩
  · simp only [_ScbNumPriGroupGet, aircrLoad, hfield, Nat.shiftLeft_eq, one_mul]
  · intro p hp
    have hset : aircr_prigroup.get (aircr_prigroup.set s.aircr p) = p := by
      rw [BitField.get_set_same]
      simp only [aircr_prigroup]
      omega
    have h2 : aircr_prigroup.get (aircr_prigroup.set s.aircr p % 2 ^ 32) = p := by
      rw [hfield]
      rw [BitField.get_eq_div] at hset
      exact hset
    simp only [_ScbNumPriGroupGet, aircrLoad, h2, Nat.shiftLeft_eq, one_mul]

/-- Witness for C3: with the priority-group field set to 3 the count is `2 ^ 4`. -/
theorem C3_num_pri_group_witness :
    3 ≤ 7 ∧
    _ScbNumPriGroupGet { scbZero with aircr := aircr_prigroup.set scbZero.aircr 3 }
      = 2 ^ (7 - 3) :=
  ⟨by decide, (C3_num_pri_group scbZero).2.2 3 (by decide)⟩

/-- C4 as stated fails: with the priority-group field 0 the count is 128, not 8, and with
the field 7 the count is 1, not 128. -/
theorem C4_end_points_counterexample :
    _ScbNumPriGroupGet { scbZero with aircr := 0x0000 } = 128 ∧
    _ScbNumPriGroupGet { scbZero with aircr := 0x0000 } ≠ 8 ∧
    _ScbNumPriGroupGet { scbZero with aircr := 0x0700 } = 1 ∧
    _ScbNumPriGroupGet { scbZero with aircr := 0x0700 } ≠ 128 := by
  decide

/-- C4 amended: `_ScbNumPriGroupGet` returns 128 when the priority-group field is 0 and 1
when the field is 7, and the count strictly decreases as the field grows: a state with a
larger field value has a smaller count. -/
theorem C4_end_points_amended (s t : Scb) :
    (aircr_prigroup.get (aircrLoad s) = 0 → _ScbNumPriGroupGet s = 128) ∧
    (aircr_prigroup.get (aircrLoad s) = 7 → _ScbNumPriGroupGet s = 1) ∧
    (aircr_prigroup.get (aircrLoad s) < aircr_prigroup.get (aircrLoad t) →
      _ScbNumPriGroupGet t < _ScbNumPriGroupGet s) := by
  refine ⟨?_, ?_, ?_⟩
  · intro h
    simp only [_ScbNumPriGroupGet, h]
    decide
  · intro h
    simp only [_ScbNumPriGroupGet, h]
    decide
  · intro h
    have ht : aircr_prigroup.get (aircrLoad t) < 8 := by
      simp only [BitField.get_eq_div, aircr_prigroup]
      omega
    simp only [_ScbNumPriGroupGet, Nat.shiftLeft_eq, one_mul]
    exact Nat.pow_lt_pow_right (by decide) (by omega)

/-- Witness for C4 amended: field 0 gives 128, field 7 gives 1, and the state with field 7
has the smaller count. -/
theorem C4_end_points_amended_witness :
    _ScbNumPriGroupGet { scbZero with aircr := 0x0000 } = 128 ∧
    _ScbNumPriGroupGet { scbZero with aircr := 0x0700 } = 1 ∧
    _ScbNumPriGroupGet { scbZero with aircr := 0x0700 }
      < _ScbNumPriGroupGet { scbZero with aircr := 0x0000 } :=
  ⟨(C4_end_points_amended { scbZero with aircr := 0x0000 } scbZero).1 (by decide),
   (C4_end_points_amended { scbZero with aircr := 0x0700 } scbZero).2.1 (by decide),
   (C4_end_points_amended { scbZero with aircr := 0x0000 }
      { scbZero with aircr := 0x0700 }).2.2 (by decide)⟩

/-! ## Pending bits of ICSR -/

theorem vtableAddrSet_guard (addr : Nat) :
    lnot (addr % 2 ^ 32 &&& 0x7F) ≠ 0 ↔ addr % 0x80 = 0 := by
  have h : addr % 2 ^ 32 &&& 0x7F = addr % 2 ^ 32 % 2 ^ 7 :=
    Nat.and_pow_two_sub_one_eq_mod (addr % 2 ^ 32) 7
  rw [h]
  unfold lnot
  split <;> omega

theorem specThresholdFrom_dvd (fuel t n : Nat) (h : 0x80 ∣ t) :
    0x80 ∣ specThresholdFrom fuel t n := by
  induction fuel generalizing t with
  | zero => exact h
  | succ k ih =>
    unfold specThresholdFrom
    split
    · exact h
    · exact ih (2 * t) (Dvd.dvd.mul_left h 2)

/-- C6 as stated fails: for 32 configured interrupts the threshold of the specification is
0x100, the address 0x80 is not a multiple of it, and `_ScbVtableAddrSet` accepts 0x80. -/
theorem C6_vtable_alignment_counterexample :
    specVtableThreshold 32 = 0x100 ∧
    0x80 % specVtableThreshold 32 ≠ 0 ∧
    (_ScbVtableAddrSet scbZero 0x80).succeeded = true := by
  decide

/-- C6 amended: `_ScbVtableAddrSet` succeeds if and only if the address is a multiple of
0x80, whatever the number of configured interrupts; an address that is not a multiple of
0x80 fails the assertion and leaves the register block, hence the vector table offset,
unchanged.  Every multiple of the threshold of the specification is accepted, and for at
most 16 interrupts that threshold is the 0x80 the code checks. -/
theorem C6_vtable_alignment_amended (s : Scb) (addr : Nat) :
    ((_ScbVtableAddrSet s addr).succeeded = true ↔ addr % 0x80 = 0) ∧
    (addr % 0x80 ≠ 0 → _ScbVtableAddrSet s addr = .assertFailed s ∧
      (_ScbVtableAddrSet s addr).state.vtor = s.vtor) ∧
    (∀ n, addr % specVtableThreshold n = 0 → (_ScbVtableAddrSet s addr).succeeded = true) ∧
    (∀ n, n ≤ 16 → specVtableThreshold n = 0x80) := by
  have hiff : (_ScbVtableAddrSet s addr).succeeded = true ↔ addr % 0x80 = 0 := by
    unfold _ScbVtableAddrSet __ASSERT
    by_cases h : addr % 0x80 = 0
    · simp only [dif_pos ((vtableAddrSet_guard addr).2 h), Outcome.succeeded, h]
    · have hg : ¬ lnot (addr % 2 ^ 32 &&& 0x7F) ≠ 0 := fun hg => h ((vtableAddrSet_guard addr).1 hg)
      simp only [dif_neg hg, Outcome.succeeded, h]
      simp
  refine ⟨hiff, ?_, ?_, ?_⟩
  · intro h
    have hg : ¬ lnot (addr % 2 ^ 32 &&& 0x7F) ≠ 0 := fun hg => h ((vtableAddrSet_guard addr).1 hg)
    simp only [_ScbVtableAddrSet, __ASSERT, dif_neg hg, Outcome.state, and_self]
  · intro n h
    have hd : 0x80 ∣ specVtableThreshold n := specThresholdFrom_dvd n 0x80 n (dvd_refl _)
    exact hiff.2 (Nat.mod_eq_zero_of_dvd (dvd_trans hd (Nat.dvd_of_mod_eq_zero h)))
  · intro n hn
    unfold specVtableThreshold
    cases n with
    | zero => rfl
    | succ k =>
      unfold specThresholdFrom
      rw [if_pos (by omega)]

/-- Witness for C6 amended: 0x81 is rejected with the register block unchanged, and 0x200,
a multiple of the threshold for 112 interrupts, is accepted. -/
theorem C6_vtable_alignment_amended_witness :
    (0x81 % 0x80 ≠ 0 ∧ 0x200 % specVtableThreshold 112 = 0 ∧ 16 ≤ 16) ∧
    _ScbVtableAddrSet scbZero 0x81 = .assertFailed scbZero ∧
    (_ScbVtableAddrSet scbZero 0x200).succeeded = true ∧
    specVtableThreshold 16 = 0x80 :=
  ⟨by decide,
   ((C6_vtable_alignment_amended scbZero 0x81).2.1 (by decide)).1,
   (C6_vtable_alignment_amended scbZero 0x200).2.2.1 112 (by decide),
   (C6_vtable_alignment_amended scbZero 0).2.2.2 16 (by decide)⟩

/-! ## Fault status registers -/

/-- A single-bit fault query, as a double negation of a one-bit field of a status
register of `n` bits, is the bit itself. -/
theorem fault_bit_query (p n r : Nat) (h : p < n) :
    lnot (lnot (BitField.get ⟨p, 1⟩ (r % 2 ^ n))) = (r.testBit p).toNat := by
  rw [lnot_lnot_bit, BitField.get_bit, Nat.testBit_mod_two_pow]
  simp [h]

theorem fault_any_query (r : Nat) : lnot (lnot r) = 1 ↔ r ≠ 0 := by
  rw [lnot_lnot]
  by_cases h : r = 0 <;> simp [h]

theorem ne_zero_of_testBit_mod (r n p : Nat) (h : p < n) (hb : r.testBit p = true) :
    r % 2 ^ n ≠ 0 := by
  intro h0
  have h1 : (r % 2 ^ n).testBit p = true := by
    rw [Nat.testBit_mod_two_pow]
    simp [h, hb]
  rw [h0, Nat.zero_testBit] at h1
  exact Bool.noConfusion h1

/-- C7: in every state whose MMFSR has the data-access-violation bit (bit 1) and the
`mmarvalid` bit (bit 7) set and whose MMFAR holds the 32-bit address `a`,
`_ScbIsMemFault`, `_ScbMemFaultIsDataAccessViolation` and `_ScbMemFaultIsMmfarValid`
return 1 and `_ScbMemFaultAddrGet` returns `a`; and in every state each of the five
MemFault sub-cause queries returns the value (1 or 0) of its own MMFSR bit, whatever the
other bits are. -/
theorem C7_memfault_classification (s : Scb) :
    (∀ a, a < 2 ^ 32 → s.mmfsr.testBit 1 = true → s.mmfsr.testBit 7 = true → s.mmfar = a →
      _ScbIsMemFault s = 1 ∧ _ScbMemFaultIsDataAccessViolation s = 1 ∧
      _ScbMemFaultIsMmfarValid s = 1 ∧ _ScbMemFaultAddrGet s = a) ∧
    _ScbMemFaultIsInstrAccessViolation s = (s.mmfsr.testBit 0).toNat ∧
    _ScbMemFaultIsDataAccessViolation s = (s.mmfsr.testBit 1).toNat ∧
    _ScbMemFaultIsUnstacking s = (s.mmfsr.testBit 3).toNat ∧
    _ScbMemFaultIsStacking s = (s.mmfsr.testBit 4).toNat ∧
    _ScbMemFaultIsMmfarValid s = (s.mmfsr.testBit 7).toNat := by
  have hi : _ScbMemFaultIsInstrAccessViolation s = (s.mmfsr.testBit 0).toNat :=
    fault_bit_query 0 8 s.mmfsr (by decide)
  have hd : _ScbMemFaultIsDataAccessViolation s = (s.mmfsr.testBit 1).toNat :=
    fault_bit_query 1 8 s.mmfsr (by decide)
  have hu : _ScbMemFaultIsUnstacking s = (s.mmfsr.testBit 3).toNat :=
    fault_bit_query 3 8 s.mmfsr (by decide)
  have hs : _ScbMemFaultIsStacking s = (s.mmfsr.testBit 4).toNat :=
    fault_bit_query 4 8 s.mmfsr (by decide)
  have hv : _ScbMemFaultIsMmfarValid s = (s.mmfsr.testBit 7).toNat :=
    fault_bit_query 7 8 s.mmfsr (by decide)
  refine ⟨?_, hi, hd, hu, hs, hv⟩
  intro a ha h1 h7 hm
  refine ⟨?_, by rw [hd, h1]; rfl, by rw [hv, h7]; rfl, ?_⟩
  · exact (fault_any_query _).2 (ne_zero_of_testBit_mod s.mmfsr 8 1 (by decide) h1)
  · unfold _ScbMemFaultAddrGet
    rw [hm]
    exact Nat.mod_eq_of_lt ha

/-- Witness for C7: MMFSR 0x82 (data access violation, address valid) with MMFAR
0xDEADBEEF is reported as a MemFault on a data access at 0xDEADBEEF. -/
theorem C7_memfault_classification_witness :
    (0xDEADBEEF < 2 ^ 32 ∧ (0x82).testBit 1 = true ∧ (0x82).testBit 7 = true) ∧
    _ScbIsMemFault { scbZero with mmfsr := 0x82, mmfar := 0xDEADBEEF } = 1 ∧
    _ScbMemFaultIsDataAccessViolation { scbZero with mmfsr := 0x82, mmfar := 0xDEADBEEF } = 1 ∧
    _ScbMemFaultIsMmfarValid { scbZero with mmfsr := 0x82, mmfar := 0xDEADBEEF } = 1 ∧
    _ScbMemFaultAddrGet { scbZero with mmfsr := 0x82, mmfar := 0xDEADBEEF } = 0xDEADBEEF :=
  ⟨by decide,
   (C7_memfault_classification { scbZero with mmfsr := 0x82, mmfar := 0xDEADBEEF }).1
     0xDEADBEEF (by decide) (by decide) (by decide) rfl⟩

theorem testBit_0xfe (i : Nat) : (0xfe : Nat).testBit i = (decide (1 ≤ i) && decide (i < 8)) := by
  have h : (0xfe : Nat) = (2 ^ 7 - 1) <<< 1 := by decide
  rw [h, Nat.testBit_shiftLeft, Nat.testBit_two_pow_sub_one]
  by_cases h1 : 1 ≤ i
  · by_cases h2 : i < 8
    · have h3 : i - 1 < 7 := by omega
      simp [h1, h2, h3]
    · have h3 : ¬ i - 1 < 7 := by omega
      simp [h1, h2, h3]
  · simp [h1]

/-- A byte status register after the store of `0xfe`: only bit 0 survives. -/
theorem w1c_byte_0xfe (r : Nat) : w1c (r % 2 ^ 8) (0xfe % 2 ^ 8) = (r.testBit 0).toNat := by
  apply Nat.eq_of_testBit_eq
  intro i
  rw [testBit_w1c, Nat.testBit_mod_two_pow, Nat.testBit_bool_to_nat,
    show (0xfe : Nat) % 2 ^ 8 = 0xfe from rfl, testBit_0xfe]
  by_cases h0 : i = 0
  · subst h0
    simp
  · have h1 : 1 ≤ i := by omega
    by_cases h2 : i < 8 <;> simp [h0, h1, h2]

/-- C8 fails on the code: with only the instruction-access-violation bit set (MMFSR 0x01),
after `_ScbMemFaultAllFaultsReset` the queries `_ScbIsMemFault` and
`_ScbMemFaultIsInstrAccessViolation` still return 1.  In every state the stored pattern
`0xfe` clears bits 1..7 (data access violation, unstacking, stacking, `mmarvalid`) and
leaves bit 0 as it was. -/
theorem C8_memfault_reset_keeps_iaccviol :
    (_ScbIsMemFault (_ScbMemFaultAllFaultsReset { scbZero with mmfsr := 0x01 }) = 1 ∧
     _ScbMemFaultIsInstrAccessViolation
       (_ScbMemFaultAllFaultsReset { scbZero with mmfsr := 0x01 }) = 1) ∧
    ∀ s : Scb,
      _ScbMemFaultIsDataAccessViolation (_ScbMemFaultAllFaultsReset s) = 0 ∧
      _ScbMemFaultIsUnstacking (_ScbMemFaultAllFaultsReset s) = 0 ∧
      _ScbMemFaultIsStacking (_ScbMemFaultAllFaultsReset s) = 0 ∧
      _ScbMemFaultIsMmfarValid (_ScbMemFaultAllFaultsReset s) = 0 ∧
      _ScbMemFaultIsInstrAccessViolation (_ScbMemFaultAllFaultsReset s)
        = _ScbMemFaultIsInstrAccessViolation s ∧
      _ScbIsMemFault (_ScbMemFaultAllFaultsReset s) = _ScbMemFaultIsInstrAccessViolation s := by
  refine ⟨by decide, ?_⟩
  intro s
  have hst : (_ScbMemFaultAllFaultsReset s).mmfsr = (s.mmfsr.testBit 0).toNat :=
    w1c_byte_0xfe s.mmfsr
  have hq : ∀ p, p < 8 →
      lnot (lnot (BitField.get ⟨p, 1⟩ (mmfsrLoad (_ScbMemFaultAllFaultsReset s))))
        = (decide (p = 0) && s.mmfsr.testBit 0).toNat := by
    intro p hp
    unfold mmfsrLoad
    rw [fault_bit_query p 8 _ hp, hst, Nat.testBit_bool_to_nat]
  have hi : _ScbMemFaultIsInstrAccessViolation s = (s.mmfsr.testBit 0).toNat :=
    fault_bit_query 0 8 s.mmfsr (by decide)
  refine ⟨?_, ?_, ?_, ?_, ?_, ?_⟩
  · exact (hq 1 (by decide)).trans (by simp)
  · exact (hq 3 (by decide)).trans (by simp)
  · exact (hq 4 (by decide)).trans (by simp)
  · exact (hq 7 (by decide)).trans (by simp)
  · exact (hq 0 (by decide)).trans (by rw [hi]; simp)
  · rw [hi]
    unfold _ScbIsMemFault mmfsrLoad
    rw [hst, lnot_lnot]
    cases s.mmfsr.testBit 0 <;> rfl

/-- C9: in every state with the `forced` bit of HFSR set and BFSR holding the imprecise bit
and no other bit, `_ScbHardFaultIsForced`, `_ScbIsBusFault` and `_ScbBusFaultIsImprecise`
return 1 while `_ScbBusFaultIsPrecise` and `_ScbBusFaultIsBfarValid` return 0; and
`_ScbIsMemFault`, respectively `_ScbIsUsageFault`, returns 0 when MMFSR, respectively UFSR,
is zero. -/
theorem C9_forced_hard_fault (s : Scb)
    (hf : s.hfsr.testBit 30 = true) (hb : s.bfsr % 2 ^ 8 = 0x04) :
    _ScbHardFaultIsForced s = 1 ∧ _ScbIsBusFault s = 1 ∧ _ScbBusFaultIsImprecise s = 1 ∧
    _ScbBusFaultIsPrecise s = 0 ∧ _ScbBusFaultIsBfarValid s = 0 ∧
    (s.mmfsr % 2 ^ 8 = 0 → _ScbIsMemFault s = 0) ∧
    (s.ufsr % 2 ^ 16 = 0 → _ScbIsUsageFault s = 0) := by
  refine ⟨?_, ?_, ?_, ?_, ?_, ?_, ?_⟩
  · unfold _ScbHardFaultIsForced hfsrLoad
    rw [show hfsr_forced = (⟨30, 1⟩ : BitField) from rfl, BitField.get_bit,
      Nat.testBit_mod_two_pow, hf]
    rfl
  · simp only [_ScbIsBusFault, bfsrLoad, hb]
    decide
  · simp only [_ScbBusFaultIsImprecise, bfsrLoad, hb]
    decide
  · simp only [_ScbBusFaultIsPrecise, bfsrLoad, hb]
    decide
  · simp only [_ScbBusFaultIsBfarValid, bfsrLoad, hb]
    decide
  · intro hm
    simp only [_ScbIsMemFault, mmfsrLoad, hm]
    decide
  · intro hu
    simp only [_ScbIsUsageFault, ufsrLoad, hu]
    decide

/-- Witness for C9: HFSR 0x40000000 (forced) with BFSR 0x04 (imprecise) is reported as an
imprecise bus fault without a valid address, and with MMFSR and UFSR zero neither as a
MemFault nor as a UsageFault. -/
theorem C9_forced_hard_fault_witness :
    ((0x40000000).testBit 30 = true ∧ 0x04 % 2 ^ 8 = 0x04 ∧ 0 % 2 ^ 8 = 0 ∧ 0 % 2 ^ 16 = 0) ∧
    _ScbHardFaultIsForced { scbZero with hfsr := 0x40000000, bfsr := 0x04 } = 1 ∧
    _ScbIsBusFault { scbZero with hfsr := 0x40000000, bfsr := 0x04 } = 1 ∧
    _ScbBusFaultIsImprecise { scbZero with hfsr := 0x40000000, bfsr := 0x04 } = 1 ∧
    _ScbBusFaultIsPrecise { scbZero with hfsr := 0x40000000, bfsr := 0x04 } = 0 ∧
    _ScbBusFaultIsBfarValid { scbZero with hfsr := 0x40000000, bfsr := 0x04 } = 0 ∧
    _ScbIsMemFault { scbZero with hfsr := 0x40000000, bfsr := 0x04 } = 0 ∧
    _ScbIsUsageFault { scbZero with hfsr := 0x40000000, bfsr := 0x04 } = 0 :=
  ⟨by decide,
   (C9_forced_hard_fault { scbZero with hfsr := 0x40000000, bfsr := 0x04 }
     (by decide) (by decide)).1,
   (C9_forced_hard_fault { scbZero with hfsr := 0x40000000, bfsr := 0x04 }
     (by decide) (by decide)).2.1,
   (C9_forced_hard_fault { scbZero with hfsr := 0x40000000, bfsr := 0x04 }
     (by decide) (by decide)).2.2.1,
   (C9_forced_hard_fault { scbZero with hfsr := 0x40000000, bfsr := 0x04 }
     (by decide) (by decide)).2.2.2.1,
   (C9_forced_hard_fault { scbZero with hfsr := 0x40000000, bfsr := 0x04 }
     (by decide) (by decide)).2.2.2.2.1,
   (C9_forced_hard_fault { scbZero with hfsr := 0x40000000, bfsr := 0x04 }
     (by decide) (by decide)).2.2.2.2.2.1 (by decide),
   (C9_forced_hard_fault { scbZero with hfsr := 0x40000000, bfsr := 0x04 }
     (by decide) (by decide)).2.2.2.2.2.2 (by decide)⟩

/-! ## Write-one-to-clear stores -/

theorem testBit_false_of_lt (x n i : Nat) (h : x < 2 ^ n) (hi : n ≤ i) : x.testBit i = false :=
  Nat.testBit_lt_two_pow (Nat.lt_of_lt_of_le h (Nat.pow_le_pow_right (by decide) hi))

theorem w1c_lt (x w n : Nat) (h : x < 2 ^ n) : w1c x w < 2 ^ n := by
  apply Nat.lt_pow_two_of_testBit
  intro i hi
  rw [testBit_w1c, testBit_false_of_lt x n i h hi]
  rfl

theorem w1c_zero (w : Nat) : w1c 0 w = 0 := by
  simp [w1c]

/-- A second store of the same pattern changes nothing. -/
theorem w1c_twice (x w n : Nat) : w1c (w1c (x % 2 ^ n) w % 2 ^ n) w = w1c (x % 2 ^ n) w := by
  rw [Nat.mod_eq_of_lt (w1c_lt _ w n (Nat.mod_lt _ (Nat.two_pow_pos n)))]
  apply Nat.eq_of_testBit_eq
  intro i
  simp only [testBit_w1c]
  cases (x % 2 ^ n).testBit i <;> cases w.testBit i <;> rfl

/-- A one-bit field assigned 1 by load, replace and store on a write-one-to-clear register
of `n` bits: every bit that was set is written back as 1, so the register ends up zero. -/
theorem w1c_rmw_set (p n r : Nat) (hp : p < n) :
    w1c (r % 2 ^ n) (BitField.set ⟨p, 1⟩ (r % 2 ^ n) 1 % 2 ^ n) = 0 := by
  apply Nat.eq_of_testBit_eq
  intro i
  rw [testBit_w1c, Nat.testBit_mod_two_pow, Nat.testBit_mod_two_pow, BitField.testBit_set,
    Nat.testBit_mod_two_pow, Nat.zero_testBit]
  by_cases hi : i < n
  · by_cases hip : i = p
    · subst hip
      simp [hi]
    · have h2 : ¬ (p ≤ i ∧ i < p + 1) := by omega
      simp [hi, h2]
  · simp [hi]

/-- A bit that reads 0 before a write-one-to-clear store reads 0 after it. -/
theorem w1c_keeps_clear (x w n i : Nat) (h : (x % 2 ^ n).testBit i = false) :
    (w1c (x % 2 ^ n) w % 2 ^ n).testBit i = false := by
  rw [Nat.testBit_mod_two_pow, testBit_w1c, h]
  simp

theorem ufsr_rmw_set_eq (s : Scb) (p : Nat) (hp : p < 16) :
    ufsrStore s (BitField.set ⟨p, 1⟩ (ufsrLoad s) 1) = { s with ufsr := 0 } := by
  unfold ufsrStore ufsrLoad
  rw [w1c_rmw_set p 16 s.ufsr hp]

theorem ufsr_rmw_set_twice (s : Scb) (p : Nat) (hp : p < 16) :
    ufsrStore (ufsrStore s (BitField.set ⟨p, 1⟩ (ufsrLoad s) 1))
        (BitField.set ⟨p, 1⟩ (ufsrLoad (ufsrStore s (BitField.set ⟨p, 1⟩ (ufsrLoad s) 1))) 1)
      = ufsrStore s (BitField.set ⟨p, 1⟩ (ufsrLoad s) 1) := by
  rw [ufsr_rmw_set_eq s p hp, ufsr_rmw_set_eq _ p hp]

/-- C10: for each of the ten fault-status clearing operations of `scb.h` and every state,
a bit of MMFSR, BFSR, UFSR or HFSR that reads 0 before the operation reads 0 after it, and
running the operation twice leaves the same register block as running it once. -/
theorem C10_w1c_idempotent (c : FaultClearOp) (s : Scb) :
    (∀ i, (mmfsrLoad s).testBit i = false → (mmfsrLoad (c.run s)).testBit i = false) ∧
    (∀ i, (bfsrLoad s).testBit i = false → (bfsrLoad (c.run s)).testBit i = false) ∧
    (∀ i, (ufsrLoad s).testBit i = false → (ufsrLoad (c.run s)).testBit i = false) ∧
    (∀ i, (hfsrLoad s).testBit i = false → (hfsrLoad (c.run s)).testBit i = false) ∧
    c.run (c.run s) = c.run s := by
  have hu : ∀ (w i : Nat), (ufsrLoad s).testBit i = false →
      (ufsrLoad (ufsrStore s w)).testBit i = false :=
    fun w i h => w1c_keeps_clear s.ufsr (w % 2 ^ 16) 16 i h
  cases c
  case usageDivByZero =>
    exact ⟨fun _ h => h, fun _ h => h, hu _, fun _ h => h, ufsr_rmw_set_twice s 9 (by decide)⟩
  case usageUnaligned =>
    exact ⟨fun _ h => h, fun _ h => h, hu _, fun _ h => h, ufsr_rmw_set_twice s 8 (by decide)⟩
  case usageNoCp =>
    exact ⟨fun _ h => h, fun _ h => h, hu _, fun _ h => h, ufsr_rmw_set_twice s 3 (by decide)⟩
  case usageInvalidPcLoad =>
    exact ⟨fun _ h => h, fun _ h => h, hu _, fun _ h => h, ufsr_rmw_set_twice s 2 (by decide)⟩
  case usageInvalidState =>
    exact ⟨fun _ h => h, fun _ h => h, hu _, fun _ h => h, ufsr_rmw_set_twice s 1 (by decide)⟩
  case usageUndefinedInstr =>
    exact ⟨fun _ h => h, fun _ h => h, hu _, fun _ h => h, ufsr_rmw_set_twice s 0 (by decide)⟩
  case usageAll =>
    refine ⟨fun _ h => h, fun _ h => h, hu _, fun _ h => h, ?_⟩
    simp only [FaultClearOp.run, _ScbUsageFaultAllFaultsReset, ufsrStore, w1c_twice]
  case memAll =>
    refine ⟨fun i h => w1c_keeps_clear s.mmfsr _ 8 i h, fun _ h => h, fun _ h => h,
      fun _ h => h, ?_⟩
    simp only [FaultClearOp.run, _ScbMemFaultAllFaultsReset, mmfsrStore, w1c_twice]
  case busAll =>
    refine ⟨fun _ h => h, fun i h => w1c_keeps_clear s.bfsr _ 8 i h, fun _ h => h,
      fun _ h => h, ?_⟩
    simp only [FaultClearOp.run, _ScbBusFaultAllFaultsReset, bfsrStore, w1c_twice]
  case hardAll =>
    refine ⟨fun _ h => h, fun _ h => h, fun _ h => h,
      fun i h => w1c_keeps_clear s.hfsr _ 32 i h, ?_⟩
    simp only [FaultClearOp.run, _ScbHardFaultAllFaultsReset, hfsrStore, w1c_twice]

/-- Witness for C10: from UFSR 0x0001 (undefined instruction), where the divide-by-zero
bit 9 reads 0, that bit still reads 0 after `_ScbUsageFaultDivByZeroReset`. -/
theorem C10_w1c_idempotent_witness :
    (ufsrLoad { scbZero with ufsr := 0x0001 }).testBit 9 = false ∧
    (ufsrLoad (FaultClearOp.usageDivByZero.run { scbZero with ufsr := 0x0001 })).testBit 9
      = false :=
  ⟨by decide,
   (C10_w1c_idempotent FaultClearOp.usageDivByZero { scbZero with ufsr := 0x0001 }).2.2.1 9
     (by decide)⟩


/-! ## Execution mode -/

/-- C13: in every state `_ScbIsInThreadMode` returns 1 exactly when `_ScbActiveVectorGet`
returns 0; `_ScbIsInHandlerMode` and `_ScbIsInExc` are equal and are the logical negation
of `_ScbIsInThreadMode`; exactly one of thread mode and handler mode holds; and each of
the three queries returns 0 or 1. -/
theorem C13_mode_queries (s : Scb) :
    (_ScbIsInThreadMode s = 1 ↔ _ScbActiveVectorGet s = 0) ∧
    _ScbIsInHandlerMode s = _ScbIsInExc s ∧
    _ScbIsInHandlerMode s = lnot (_ScbIsInThreadMode s) ∧
    ((_ScbIsInThreadMode s = 1 ∧ _ScbIsInHandlerMode s = 0) ∨
      (_ScbIsInThreadMode s = 0 ∧ _ScbIsInHandlerMode s = 1)) ∧
    (_ScbIsInThreadMode s = 0 ∨ _ScbIsInThreadMode s = 1) ∧
    (_ScbIsInHandlerMode s = 0 ∨ _ScbIsInHandlerMode s = 1) ∧
    (_ScbIsInExc s = 0 ∨ _ScbIsInExc s = 1) := by
  unfold _ScbIsInExc _ScbIsInHandlerMode _ScbIsInThreadMode _ScbActiveVectorGet
  generalize icsr_vectactive.get (icsrLoad s) = v
  unfold lnot
  by_cases h : v = 0 <;> simp [h]

/-! ## Frame of the priority store -/

/-- C15: for every exception number in 4..15 and every priority, `_ScbExcPrioSet` addresses
slot `exc - 4`, which lies in 0..11; that slot receives the stored priority and every
other slot of the priority array keeps its value; for every other exception number in
4..15 `_ScbExcPrioGet` returns the same value before and after; and ICSR, VTOR, AIRCR,
SCR, CCR, SHCSR, the fault status registers and the fault address registers are
unchanged. -/
theorem C15_prio_set_frame (hw : Hw) (s : Scb) (exc pri : Nat) (hexc : 4 ≤ exc ∧ exc ≤ 15) :
    exc - 4 ≤ 11 ∧
    (∀ j : Fin 12, j.val = exc - 4 →
      (_ScbExcPrioSet hw s exc pri).state.shpr j
        = pri % 2 ^ 8 - pri % 2 ^ 8 % 2 ^ (8 - hw.prioBits)) ∧
    (∀ j : Fin 12, j.val ≠ exc - 4 → (_ScbExcPrioSet hw s exc pri).state.shpr j = s.shpr j) ∧
    (∀ exc2, 4 ≤ exc2 ∧ exc2 ≤ 15 → exc2 ≠ exc →
      (_ScbExcPrioGet (_ScbExcPrioSet hw s exc pri).state exc2).value
        = (_ScbExcPrioGet s exc2).value ∧
      (_ScbExcPrioGet s exc2).succeeded = true) ∧
    (_ScbExcPrioSet hw s exc pri).state.icsr = s.icsr ∧
    (_ScbExcPrioSet hw s exc pri).state.vtor = s.vtor ∧
    (_ScbExcPrioSet hw s exc pri).state.aircr = s.aircr ∧
    (_ScbExcPrioSet hw s exc pri).state.scr = s.scr ∧
    (_ScbExcPrioSet hw s exc pri).state.ccr = s.ccr ∧
    (_ScbExcPrioSet hw s exc pri).state.shcsr = s.shcsr ∧
    (_ScbExcPrioSet hw s exc pri).state.mmfsr = s.mmfsr ∧
    (_ScbExcPrioSet hw s exc pri).state.bfsr = s.bfsr ∧
    (_ScbExcPrioSet hw s exc pri).state.ufsr = s.ufsr ∧
    (_ScbExcPrioSet hw s exc pri).state.hfsr = s.hfsr ∧
    (_ScbExcPrioSet hw s exc pri).state.mmfar = s.mmfar ∧
    (_ScbExcPrioSet hw s exc pri).state.bfar = s.bfar := by
  have h : 3 < exc ∧ exc < 16 := by omega
  have hst : (_ScbExcPrioSet hw s exc pri).state = shprStore hw s ⟨exc - 4, by omega⟩ pri := by
    simp only [excPrioSet_of_valid hw s exc pri h, Outcome.state]
  rw [hst]
  refine ⟨by omega, ?_, ?_, ?_, rfl, rfl, rfl, rfl, rfl, rfl, rfl, rfl, rfl, rfl, rfl, rfl⟩
  · intro j hj
    have hje : j = ⟨exc - 4, by omega⟩ := Fin.ext hj
    simp only [shprStore, hje, Function.update_same]
  · intro j hj
    have hje : j ≠ ⟨exc - 4, by omega⟩ := fun hje => hj (congrArg Fin.val hje)
    simp only [shprStore, Function.update_noteq hje]
  · intro exc2 h2 hne
    have h2a : 3 < exc2 ∧ exc2 < 16 := by omega
    have hje : (⟨exc2 - 4, by omega⟩ : Fin 12) ≠ ⟨exc - 4, by omega⟩ := by
      intro hje
      have := congrArg Fin.val hje
      simp only at this
      omega
    simp only [excPrioGet_of_valid _ exc2 h2a, Outcome.value, Outcome.succeeded, shprLoad,
      shprStore, Function.update_noteq hje, and_self]

/-- Witness for C15: setting the priority of exception 14 (PendSV) leaves the priority read
for exception 15 (SysTick) as it was. -/
theorem C15_prio_set_frame_witness :
    (4 ≤ 14 ∧ 14 ≤ 15) ∧ (4 ≤ 15 ∧ 15 ≤ 15) ∧ 15 ≠ 14 ∧
    (_ScbExcPrioGet (_ScbExcPrioSet hwAllBits scbZero 14 0xA5).state 15).value
      = (_ScbExcPrioGet scbZero 15).value :=
  ⟨by decide, by decide, by decide,
   ((C15_prio_set_frame hwAllBits scbZero 14 0xA5 (by decide)).2.2.2.1 15 (by decide)
     (by decide)).1⟩

/-! ## ARC interrupt configuration -/

/-- C12: after `IRQ_CONNECT_STATIC(device, i, p, h, pm, f)` with `p` an `unsigned int`,
`IRQ_CONFIG(device, i)` is the call `_irq_priority_set(i, p)` with the recorded priority
`p`; it leaves the priority register of line `i` holding `p` and every other priority
register as it was, and a second `IRQ_CONFIG(device, i)` leaves the interrupt unit in the
state the first one produced. -/
theorem C12_irq_config_idempotent (img : ArcImage) (u : IrqUnit) (device : Device)
    (i p h pm f : Nat) (hi : i < 2 ^ 32) (hp : p < 2 ^ 32) :
    (IRQ_CONNECT_STATIC img device i p h pm f).int_priority device = some p ∧
    IRQ_CONFIG (IRQ_CONNECT_STATIC img device i p h pm f) u device i
      = some (_irq_priority_set u i p) ∧
    (_irq_priority_set u i p).priority i = p ∧
    (∀ j, j ≠ i → (_irq_priority_set u i p).priority j = u.priority j) ∧
    IRQ_CONFIG (IRQ_CONNECT_STATIC img device i p h pm f) (_irq_priority_set u i p) device i
      = some (_irq_priority_set u i p) := by
  have hpm : p % 2 ^ 32 = p := Nat.mod_eq_of_lt hp
  have him : i % 2 ^ 32 = i := Nat.mod_eq_of_lt hi
  have hrec : (IRQ_CONNECT_STATIC img device i p h pm f).int_priority device = some p := by
    simp only [IRQ_CONNECT_STATIC, Function.update_same, hpm]
  refine ⟨hrec, ?_, ?_, ?_, ?_⟩
  · simp only [IRQ_CONFIG, hrec, him]
  · simp only [_irq_priority_set, Function.update_same]
  · intro j hj
    simp only [_irq_priority_set, Function.update_noteq hj]
  · simp only [IRQ_CONFIG, hrec, him, _irq_priority_set, Function.update_idem]

/-- Witness for C12: device 7 declared on line 18 with priority 3, configured twice. -/
theorem C12_irq_config_idempotent_witness :
    (18 < 2 ^ 32 ∧ 3 < 2 ^ 32) ∧
    IRQ_CONFIG (IRQ_CONNECT_STATIC ArcImage.empty 7 18 3 0x1000 0 0)
        (_irq_priority_set { priority := fun _ => 0 } 18 3) 7 18
      = some (_irq_priority_set { priority := fun _ => 0 } 18 3) :=
  ⟨by decide,
   (C12_irq_config_idempotent ArcImage.empty { priority := fun _ => 0 } 7 18 3 0x1000 0 0
     (by decide) (by decide)).2.2.2.2⟩

/-! ## Clearing of single fault causes and of whole status registers -/

theorem usage_query_zero (s : Scb) (d : UsageCause) : d.query { s with ufsr := 0 } = 0 := by
  cases d <;>
    simp only [UsageCause.query, _ScbUsageFaultIsDivByZero, _ScbUsageFaultIsUnaligned,
      _ScbUsageFaultIsNoCp, _ScbUsageFaultIsInvalidPcLoad, _ScbUsageFaultIsInvalidState,
      _ScbUsageFaultIsUndefinedInstr, ufsrLoad] <;>
    decide

theorem usage_reset_eq (s : Scb) (c : UsageCause) : c.reset s = { s with ufsr := 0 } := by
  cases c
  · exact ufsr_rmw_set_eq s 9 (by decide)
  · exact ufsr_rmw_set_eq s 8 (by decide)
  · exact ufsr_rmw_set_eq s 3 (by decide)
  · exact ufsr_rmw_set_eq s 2 (by decide)
  · exact ufsr_rmw_set_eq s 1 (by decide)
  · exact ufsr_rmw_set_eq s 0 (by decide)

/-- C11 fails on the code: with the divide-by-zero and the undefined-instruction bits set
(UFSR 0x0201), `_ScbUsageFaultDivByZeroReset` makes `_ScbUsageFaultIsUndefinedInstr` go
from 1 to 0.  In every state each of the six single resets, being a load, replace and
store of the whole write-one-to-clear halfword, writes back every set bit as 1: afterwards
UFSR is zero and all six sub-cause queries return 0, as after
`_ScbUsageFaultAllFaultsReset`. -/
theorem C11_single_reset_clears_all :
    (_ScbUsageFaultIsUndefinedInstr { scbZero with ufsr := 0x0201 } = 1 ∧
     _ScbUsageFaultIsUndefinedInstr
       (_ScbUsageFaultDivByZeroReset { scbZero with ufsr := 0x0201 }) = 0) ∧
    ∀ (s : Scb) (c d : UsageCause),
      d.query (c.reset s) = 0 ∧ (c.reset s).ufsr = 0 ∧
      d.query (_ScbUsageFaultAllFaultsReset s) = 0 := by
  refine ⟨by decide, ?_⟩
  intro s c d
  rw [usage_reset_eq s c]
  refine ⟨usage_query_zero s d, rfl, ?_⟩
  have hall : _ScbUsageFaultAllFaultsReset s = { s with ufsr := 0 } := by
    unfold _ScbUsageFaultAllFaultsReset ufsrStore
    have h0 : w1c (s.ufsr % 2 ^ 16) (0xffff % 2 ^ 16) = 0 := by
      apply Nat.eq_of_testBit_eq
      intro i
      rw [testBit_w1c, show (0xffff : Nat) % 2 ^ 16 = 2 ^ 16 - 1 from rfl,
        Nat.testBit_two_pow_sub_one, Nat.testBit_mod_two_pow, Nat.zero_testBit]
      by_cases hi : i < 16 <;> simp [hi]
    rw [h0]
  rw [hall]
  exact usage_query_zero s d

/-- C14 fails on the code: with only the `forced` bit set (HFSR 0x40000000), after
`_ScbHardFaultAllFaultsReset` the query `_ScbHardFaultIsForced` still returns 1.  In every
state the stored constant `0xffff` reaches bits 0..15 only: the call returns `0xffff`,
`_ScbHardFaultIsBusErrOnVectorRead` returns 0 afterwards, and `_ScbHardFaultIsForced`
returns what it returned before. -/
theorem C14_hardfault_reset_keeps_forced :
    (_ScbHardFaultIsForced { scbZero with hfsr := 0x40000000 } = 1 ∧
     _ScbHardFaultIsForced
       (_ScbHardFaultAllFaultsReset { scbZero with hfsr := 0x40000000 }).2 = 1) ∧
    ∀ s : Scb,
      (_ScbHardFaultAllFaultsReset s).1 = 0xffff ∧
      _ScbHardFaultIsBusErrOnVectorRead (_ScbHardFaultAllFaultsReset s).2 = 0 ∧
      _ScbHardFaultIsForced (_ScbHardFaultAllFaultsReset s).2 = _ScbHardFaultIsForced s := by
  refine ⟨by decide, ?_⟩
  intro s
  have hbit : ∀ p, p < 32 →
      BitField.get ⟨p, 1⟩ (hfsrLoad (_ScbHardFaultAllFaultsReset s).2)
        = (s.hfsr.testBit p && !decide (p < 16)).toNat := by
    intro p hp
    simp only [_ScbHardFaultAllFaultsReset, hfsrStore, hfsrLoad]
    rw [BitField.get_bit, Nat.testBit_mod_two_pow, testBit_w1c, Nat.testBit_mod_two_pow,
      show (0xffff : Nat) % 2 ^ 32 = 2 ^ 16 - 1 from rfl, Nat.testBit_two_pow_sub_one]
    simp [hp]
  refine ⟨rfl, ?_, ?_⟩
  · exact (hbit 1 (by decide)).trans (by simp)
  · refine (hbit 30 (by decide)).trans ?_
    unfold _ScbHardFaultIsForced hfsrLoad
    rw [show hfsr_forced = (⟨30, 1⟩ : BitField) from rfl, BitField.get_bit,
      Nat.testBit_mod_two_pow]
    simp

/-- C16 fails on the code: with only the instruction-bus-error bit set (BFSR 0x01), after
`_ScbBusFaultAllFaultsReset` the queries `_ScbIsBusFault` and `_ScbBusFaultIsInstrBusErr`
still return 1.  In every state the stored pattern `0xfe` clears bits 1..7 (precise,
imprecise, unstacking, stacking, `bfarvalid`), leaves bit 0 as it was, and leaves the
MMFSR byte and the UFSR halfword unchanged. -/
theorem C16_busfault_reset_keeps_ibuserr :
    (_ScbIsBusFault (_ScbBusFaultAllFaultsReset { scbZero with bfsr := 0x01 }) = 1 ∧
     _ScbBusFaultIsInstrBusErr
       (_ScbBusFaultAllFaultsReset { scbZero with bfsr := 0x01 }) = 1) ∧
    ∀ s : Scb,
      _ScbBusFaultIsPrecise (_ScbBusFaultAllFaultsReset s) = 0 ∧
      _ScbBusFaultIsImprecise (_ScbBusFaultAllFaultsReset s) = 0 ∧
      _ScbBusFaultIsUnstacking (_ScbBusFaultAllFaultsReset s) = 0 ∧
      _ScbBusFaultIsStacking (_ScbBusFaultAllFaultsReset s) = 0 ∧
      _ScbBusFaultIsBfarValid (_ScbBusFaultAllFaultsReset s) = 0 ∧
      _ScbBusFaultIsInstrBusErr (_ScbBusFaultAllFaultsReset s) = _ScbBusFaultIsInstrBusErr s ∧
      _ScbIsBusFault (_ScbBusFaultAllFaultsReset s) = _ScbBusFaultIsInstrBusErr s ∧
      (_ScbBusFaultAllFaultsReset s).mmfsr = s.mmfsr ∧
      (_ScbBusFaultAllFaultsReset s).ufsr = s.ufsr := by
  refine ⟨by decide, ?_⟩
  intro s
  have hst : (_ScbBusFaultAllFaultsReset s).bfsr = (s.bfsr.testBit 0).toNat :=
    w1c_byte_0xfe s.bfsr
  have hq : ∀ p, p < 8 →
      lnot (lnot (BitField.get ⟨p, 1⟩ (bfsrLoad (_ScbBusFaultAllFaultsReset s))))
        = (decide (p = 0) && s.bfsr.testBit 0).toNat := by
    intro p hp
    unfold bfsrLoad
    rw [fault_bit_query p 8 _ hp, hst, Nat.testBit_bool_to_nat]
  have hi : _ScbBusFaultIsInstrBusErr s = (s.bfsr.testBit 0).toNat :=
    fault_bit_query 0 8 s.bfsr (by decide)
  refine ⟨?_, ?_, ?_, ?_, ?_, ?_, ?_, rfl, rfl⟩
  · exact (hq 1 (by decide)).trans (by simp)
  · exact (hq 2 (by decide)).trans (by simp)
  · exact (hq 3 (by decide)).trans (by simp)
  · exact (hq 4 (by decide)).trans (by simp)
  · exact (hq 7 (by decide)).trans (by simp)
  · exact (hq 0 (by decide)).trans (by rw [hi]; simp)
  · rw [hi]
    unfold _ScbIsBusFault bfsrLoad
    rw [hst, lnot_lnot]
    cases s.bfsr.testBit 0 <;> rfl

/-- A one-bit field assigned 0 by load, replace and store on a write-one-to-clear register
of `n` bits: every other set bit is written back as 1 and cleared, and the field itself,
written as 0, keeps its value. -/
theorem w1c_rmw_clear (p n r i : Nat) (hp : p < n) :
    (w1c (r % 2 ^ n) (BitField.set ⟨p, 1⟩ (r % 2 ^ n) 0 % 2 ^ n)).testBit i
      = (decide (i = p) && r.testBit p) := by
  rw [testBit_w1c, Nat.testBit_mod_two_pow, Nat.testBit_mod_two_pow, BitField.testBit_set,
    Nat.testBit_mod_two_pow, Nat.zero_testBit]
  by_cases hi : i < n
  · by_cases hip : i = p
    · subst hip
      simp [hi]
    · have h2 : ¬ (p ≤ i ∧ i < p + 1) := by omega
      simp [hi, h2, hip]
  · have hip : i ≠ p := by omega
    simp [hi, hip]

/-- C17 fails on the code: with the data-access-violation and `mmarvalid` bits set
(MMFSR 0x82), after `_ScbMemFaultMmfarReset` the query `_ScbMemFaultIsMmfarValid` still
returns 1 and `_ScbMemFaultIsDataAccessViolation` has gone from 1 to 0; the same happens to
BFSR 0x82 under `_ScbBusFaultBfarReset`.  In every state the assignment of 0 to the valid
bit leaves that bit as it was and clears every other bit of the status byte. -/
theorem C17_far_reset_keeps_valid_bit :
    (_ScbMemFaultIsMmfarValid (_ScbMemFaultMmfarReset { scbZero with mmfsr := 0x82 }) = 1 ∧
     _ScbMemFaultIsDataAccessViolation { scbZero with mmfsr := 0x82 } = 1 ∧
     _ScbMemFaultIsDataAccessViolation
       (_ScbMemFaultMmfarReset { scbZero with mmfsr := 0x82 }) = 0 ∧
     _ScbBusFaultIsBfarValid (_ScbBusFaultBfarReset { scbZero with bfsr := 0x82 }) = 1 ∧
     _ScbBusFaultIsPrecise { scbZero with bfsr := 0x82 } = 1 ∧
     _ScbBusFaultIsPrecise (_ScbBusFaultBfarReset { scbZero with bfsr := 0x82 }) = 0) ∧
    ∀ s : Scb,
      _ScbMemFaultIsMmfarValid (_ScbMemFaultMmfarReset s) = _ScbMemFaultIsMmfarValid s ∧
      _ScbMemFaultIsInstrAccessViolation (_ScbMemFaultMmfarReset s) = 0 ∧
      _ScbMemFaultIsDataAccessViolation (_ScbMemFaultMmfarReset s) = 0 ∧
      _ScbMemFaultIsUnstacking (_ScbMemFaultMmfarReset s) = 0 ∧
      _ScbMemFaultIsStacking (_ScbMemFaultMmfarReset s) = 0 ∧
      _ScbBusFaultIsBfarValid (_ScbBusFaultBfarReset s) = _ScbBusFaultIsBfarValid s ∧
      _ScbBusFaultIsInstrBusErr (_ScbBusFaultBfarReset s) = 0 ∧
      _ScbBusFaultIsPrecise (_ScbBusFaultBfarReset s) = 0 ∧
      _ScbBusFaultIsImprecise (_ScbBusFaultBfarReset s) = 0 ∧
      _ScbBusFaultIsUnstacking (_ScbBusFaultBfarReset s) = 0 ∧
      _ScbBusFaultIsStacking (_ScbBusFaultBfarReset s) = 0 := by
  refine ⟨by decide, ?_⟩
  intro s
  have hm : ∀ p, p < 8 →
      lnot (lnot (BitField.get ⟨p, 1⟩ (mmfsrLoad (_ScbMemFaultMmfarReset s))))
        = (decide (p = 7) && s.mmfsr.testBit 7).toNat := by
    intro p hp
    simp only [_ScbMemFaultMmfarReset, mmfsrStore, mmfsrLoad]
    rw [fault_bit_query p 8 _ hp, show mmfsr_mmarvalid = (⟨7, 1⟩ : BitField) from rfl,
      w1c_rmw_clear 7 8 s.mmfsr p (by decide)]
  have hb : ∀ p, p < 8 →
      lnot (lnot (BitField.get ⟨p, 1⟩ (bfsrLoad (_ScbBusFaultBfarReset s))))
        = (decide (p = 7) && s.bfsr.testBit 7).toNat := by
    intro p hp
    simp only [_ScbBusFaultBfarReset, bfsrStore, bfsrLoad]
    rw [fault_bit_query p 8 _ hp, show bfsr_bfarvalid = (⟨7, 1⟩ : BitField) from rfl,
      w1c_rmw_clear 7 8 s.bfsr p (by decide)]
  have hmv : _ScbMemFaultIsMmfarValid s = (s.mmfsr.testBit 7).toNat :=
    fault_bit_query 7 8 s.mmfsr (by decide)
  have hbv : _ScbBusFaultIsBfarValid s = (s.bfsr.testBit 7).toNat :=
    fault_bit_query 7 8 s.bfsr (by decide)
  refine ⟨?_, ?_, ?_, ?_, ?_, ?_, ?_, ?_, ?_, ?_, ?_⟩
  · exact (hm 7 (by decide)).trans (by rw [hmv]; simp)
  · exact (hm 0 (by decide)).trans (by simp)
  · exact (hm 1 (by decide)).trans (by simp)
  · exact (hm 3 (by decide)).trans (by simp)
  · exact (hm 4 (by decide)).trans (by simp)
  · exact (hb 7 (by decide)).trans (by rw [hbv]; simp)
  · exact (hb 0 (by decide)).trans (by simp)
  · exact (hb 1 (by decide)).trans (by simp)
  · exact (hb 2 (by decide)).trans (by simp)
  · exact (hb 3 (by decide)).trans (by simp)
  · exact (hb 4 (by decide)).trans (by simp)

/-! ## Trace event identifiers -/

/-- C18: the 120 `TID_*` constants of `tracing_sysview_ids.h` are pairwise distinct, each
equals `TID_OFFSET` (32) plus an index in 0..130, the largest index 130 is that of
`TID_SYSCALL` and of no other constant, and every identifier lies in 32..162. -/
theorem C18_tid_table_well_formed :
    tidTable.length = 120 ∧
    tidTable.Nodup ∧
    TID_OFFSET = 32 ∧
    (∀ x ∈ tidTable, ∃ i, i ≤ 130 ∧ x = TID_OFFSET + i) ∧
    TID_SYSCALL = TID_OFFSET + 130 ∧
    TID_SYSCALL ∈ tidTable ∧
    tidTable.count (TID_OFFSET + 130) = 1 ∧
    (∀ x ∈ tidTable, 32 ≤ x ∧ x ≤ 162) := by
  have hrange : ∀ x ∈ tidTable, 32 ≤ x ∧ x ≤ 162 := by
    set_option maxRecDepth 100000 in decide
  have hnodup : tidTable.Nodup := by
    set_option maxRecDepth 100000 in decide
  refine ⟨by decide, hnodup, rfl, ?_, by decide, by decide, by decide, hrange⟩
  intro x hx
  have h := hrange x hx
  exact ⟨x - 32, by omega, by simp only [TID_OFFSET]; omega⟩

end Zephyr
